import Mathlib

/-!
# Verification of the `ParticleBackground` canvas animation component

A shallow embedding of the particle-field renderer: the `Particle` record,
the pool-creation formula, the per-frame kinematic update (position advance,
boundary bounce, pointer attraction), the per-frame proximity scan that
records connections, and the mount/resize/teardown lifecycle.

Numbers are modelled as real numbers (the source uses JS doubles; `Math.sqrt`
becomes `Real.sqrt`).  Canvas dimensions are natural numbers (`canvas.width`
and `canvas.height` are unsigned integers in the DOM).  `Math.random()` draws
are modelled by an explicit stream `r : ℕ → ℝ` of values in `[0, 1)`,
consumed six at a time per particle in source order
(x, y, vx, vy, size, opacity).
-/

namespace ParticleBackground

open scoped Classical

/-- Model of the `Particle` interface: position, velocity, radius, opacity and
the per-frame list of connected particle indices. -/
structure Particle where
  x : ℝ
  y : ℝ
  vx : ℝ
  vy : ℝ
  size : ℝ
  opacity : ℝ
  connections : List ℕ

/-- The pool-size formula from `createParticles`:
`Math.min(100, Math.floor((canvas.width * canvas.height) / 15000))`.
Natural-number division is floor division, and the result is a natural
number, hence never negative. -/
def particleCount (w h : ℕ) : ℕ :=
  min 100 (w * h / 15000)

/-- The particle pushed at loop index `i` of `createParticles`:
`x = Math.random() * canvas.width`, `y = Math.random() * canvas.height`,
`vx = (Math.random() - 0.5) * 0.5`, `vy = (Math.random() - 0.5) * 0.5`,
`size = Math.random() * 3 + 1`, `opacity = Math.random() * 0.5 + 0.2`,
`connections = []`.  The six `Math.random()` calls are the stream values
`r (6*i) … r (6*i+5)`. -/
noncomputable def mkParticle (w h : ℕ) (r : ℕ → ℝ) (i : ℕ) : Particle :=
  { x := r (6 * i) * w
    y := r (6 * i + 1) * h
    vx := (r (6 * i + 2) - 0.5) * 0.5
    vy := (r (6 * i + 3) - 0.5) * 0.5
    size := r (6 * i + 4) * 3 + 1
    opacity := r (6 * i + 5) * 0.5 + 0.2
    connections := [] }

/-- `createParticles`: a fresh pool of `particleCount` particles, discarding
any previous pool. -/
noncomputable def createParticles (w h : ℕ) (r : ℕ → ℝ) : List Particle :=
  (List.range (particleCount w h)).map (mkParticle w h r)

/-- The kinematic part of one `updateParticles` iteration for one particle:
position advance (`particle.x += particle.vx`), boundary bounce
(`if (particle.x < 0 || particle.x > canvas.width) particle.vx *= -1`), then
pointer attraction (`dx = mouse.x - particle.x`, …,
`distance = Math.sqrt(dx*dx + dy*dy)`,
`if (distance < 150) particle.vx += (dx / distance) * ((150 - distance) / 150) * 0.01`).
The `connections` field is not touched here; it is recomputed by `connScan`. -/
noncomputable def stepKin (m : ℝ × ℝ) (w h : ℝ) (p : Particle) : Particle :=
  let x1 := p.x + p.vx
  let y1 := p.y + p.vy
  let vx1 := if x1 < 0 ∨ x1 > w then -p.vx else p.vx
  let vy1 := if y1 < 0 ∨ y1 > h then -p.vy else p.vy
  let dx := m.1 - x1
  let dy := m.2 - y1
  let dist := Real.sqrt (dx * dx + dy * dy)
  let vx2 := if dist < 150 then vx1 + dx / dist * ((150 - dist) / 150) * 0.01 else vx1
  let vy2 := if dist < 150 then vy1 + dy / dist * ((150 - dist) / 150) * 0.01 else vy1
  { p with x := x1, y := y1, vx := vx2, vy := vy2 }

/-- The x-component of the pointer-attraction velocity increment of
`stepKin`, as a standalone function of the pointer and the advanced
position `(x1, y1)`: zero when the pointer is 150px or further away. -/
noncomputable def attrX (m : ℝ × ℝ) (x1 y1 : ℝ) : ℝ :=
  let dx := m.1 - x1
  let dy := m.2 - y1
  let dist := Real.sqrt (dx * dx + dy * dy)
  if dist < 150 then dx / dist * ((150 - dist) / 150) * 0.01 else 0

/-- The y-component of the pointer-attraction velocity increment of
`stepKin`. -/
noncomputable def attrY (m : ℝ × ℝ) (x1 y1 : ℝ) : ℝ :=
  let dx := m.1 - x1
  let dy := m.2 - y1
  let dist := Real.sqrt (dx * dx + dy * dy)
  if dist < 150 then dy / dist * ((150 - dist) / 150) * 0.01 else 0

/-- The connection scan of one `updateParticles` iteration: for the already
updated particle `p` at some index `i`, walk the not-yet-updated particles at
indices `j = i+1, i+2, …` (the argument list `rest`) and record `j` whenever
`Math.sqrt((p.x - other.x) ** 2 + (p.y - other.y) ** 2) < 120`. -/
noncomputable def connScan (p : Particle) : ℕ → List Particle → List ℕ
  | _, [] => []
  | j, q :: rest =>
    if Real.sqrt ((p.x - q.x) ^ 2 + (p.y - q.y) ^ 2) < 120 then
      j :: connScan p (j + 1) rest
    else
      connScan p (j + 1) rest

/-- The `forEach` body of `updateParticles`, starting at index `i`: each
particle is kinematically updated in place, then its connection list is
rebuilt by scanning the particles after it (which still hold their
pre-update state, exactly as in the in-place loop). -/
noncomputable def updateFrom (m : ℝ × ℝ) (w h : ℝ) : ℕ → List Particle → List Particle
  | _, [] => []
  | i, p :: rest =>
    let p1 := stepKin m w h p
    ({ p1 with connections := connScan p1 (i + 1) rest }) :: updateFrom m w h (i + 1) rest

/-- `updateParticles`: one whole frame update of the pool. -/
noncomputable def updateParticles (m : ℝ × ℝ) (w h : ℝ) (ps : List Particle) : List Particle :=
  updateFrom m w h 0 ps

/-- The pool after `n` animation frames, starting from pool `ps`, where
`mseq k` is the last-known pointer position during frame `k`. -/
noncomputable def poolTraj (mseq : ℕ → ℝ × ℝ) (w h : ℝ) (ps : List Particle) : ℕ → List Particle
  | 0 => ps
  | n + 1 => updateParticles (mseq n) w h (poolTraj mseq w h ps n)

/-- Concrete `Math.random()` stream used by the C2 counterexample: x-seed
1177/2000, velocity seed 0 (giving `vx = -1/4`), every other draw 1/2.
All values lie in `[0, 1)`. -/
noncomputable def cexRand : ℕ → ℝ := fun k =>
  if k = 0 then 1177 / 2000 else if k = 2 then 0 else 1 / 2

/-- Numerators (over the common denominator 480000) of the per-frame pointer
x-coordinates of the C2 counterexample; every entry is at most 480000, so
every pointer x-coordinate lies inside the 1-px-wide viewport. -/
noncomputable def cexMxNums : List ℕ :=
  [42480, 7688, 388098, 282456, 421598, 445524, 234242, 138176,
   229474, 75988, 37718, 474656, 402486, 455100, 32506, 90332,
   23374, 431624, 388142, 469444, 75538, 104676, 9030, 388592,
   373798, 423788, 118574, 119020, 54682, 345548, 359450, 438136,
   161618, 133368, 40334, 302504, 345102, 452484, 204662, 147716,
   25986, 259460, 330754, 466832, 7706, 162080, 11670, 456464,
   316422, 451164, 50704, 176412, 27336, 413462, 302088, 465498,
   93706, 190746, 13002, 370460, 287754, 479832, 136708, 205080,
   13668, 327457, 273420, 479167, 179713, 219415, 254333, 294035,
   259085, 228919, 193969, 224167, 249581, 279779, 254333, 233671,
   208225, 228919, 244829, 265523, 249581, 238423, 222481, 233671,
   240077, 251267, 244829, 3175, 240061, 241731, 244813, 12679,
   240045, 472195, 244781, 22151, 240013, 462659, 244749, 31623,
   0]

/-- Concrete pointer x-coordinate for each frame of the C2 counterexample. -/
noncomputable def cexMx : ℕ → ℝ := fun k =>
  ((cexMxNums.getD k 240000 : ℕ) : ℝ) / 480000

/-- Concrete pointer trajectory of the C2 counterexample: x-coordinate from
`cexMx`, y-coordinate pinned to the particle's row 7500 (inside the
15000-px-tall viewport). -/
noncomputable def cexMouse : ℕ → ℝ × ℝ := fun k => (cexMx k, 7500)

/-- The observable component state: canvas dimensions, the particle pool
(`particlesRef`), the scheduled animation-frame callback (`none` when no
callback is pending), the last handle stored in `animationRef`, and whether
the `mousemove` / `resize` window listeners are registered. -/
structure CompState where
  width : ℕ
  height : ℕ
  pool : List Particle
  pendingFrame : Option ℕ
  animationRef : Option ℕ
  mouseListener : Bool
  resizeListener : Bool

/-- The state of a component whose effect did nothing: empty pool, no frame
scheduled, no handle recorded, no listeners. -/
def inertState : CompState :=
  { width := 0, height := 0, pool := [], pendingFrame := none,
    animationRef := none, mouseListener := false, resizeListener := false }

/-- The mount effect.  `hasCanvas` models `canvasRef.current` being non-null,
`hasCtx` models `canvas.getContext('2d')` succeeding.  If either guard fails
the effect returns early and nothing happens.  Otherwise: `resizeCanvas()`
(canvas sized to the `w × h` viewport), `createParticles()`, one synchronous
`animate()` pass (an `updateParticles` with the initial `mouseRef` value
`(0, 0)`, a draw, and a `requestAnimationFrame` whose handle — modelled as
`0` — is stored in `animationRef`), then both window listeners are added. -/
noncomputable def initEffect (hasCanvas hasCtx : Bool) (w h : ℕ) (r : ℕ → ℝ) : CompState :=
  if hasCanvas then
    if hasCtx then
      { width := w, height := h,
        pool := updateParticles (0, 0) w h (createParticles w h r),
        pendingFrame := some 0, animationRef := some 0,
        mouseListener := true, resizeListener := true }
    else inertState
  else inertState

/-- The effect cleanup: `if (animationRef.current) cancelAnimationFrame(...)`
(cancelling an already-cancelled or never-pending handle is a no-op), then
both `removeEventListener` calls (also no-ops when the listener is absent).
`animationRef` itself is not cleared by the source. -/
def cleanup (s : CompState) : CompState :=
  let s1 := match s.animationRef with
    | some id => if s.pendingFrame = some id then { s with pendingFrame := none } else s
    | none => s
  { s1 with mouseListener := false, resizeListener := false }

/-- `handleResize`: `resizeCanvas()` (adopt the new viewport dimensions) then
`createParticles()` (a brand-new pool; the previous pool is discarded). -/
noncomputable def handleResize (s : CompState) (w h : ℕ) (r : ℕ → ℝ) : CompState :=
  { s with width := w, height := h, pool := createParticles w h r }

/-- A JS double with explicit NaN: `none` is NaN, `some a` a finite value.
Used to analyse the unguarded division in the pointer-attraction step; the
real-valued model above idealises away NaN. -/
abbrev JsNum := Option ℝ

/-- JS addition: NaN-absorbing. -/
noncomputable def jadd : JsNum → JsNum → JsNum
  | some a, some b => some (a + b)
  | _, _ => none

/-- JS subtraction: NaN-absorbing. -/
noncomputable def jsub : JsNum → JsNum → JsNum
  | some a, some b => some (a - b)
  | _, _ => none

/-- JS multiplication: NaN-absorbing. -/
noncomputable def jmul : JsNum → JsNum → JsNum
  | some a, some b => some (a * b)
  | _, _ => none

/-- JS division, NaN-absorbing, with division by zero mapped to `none`.
In IEEE arithmetic `0/0` is NaN while `a/0` for `a ≠ 0` is `±Infinity`; in
this component the only zero divisor that can occur is the particle-pointer
distance, which vanishes exactly when both numerator components vanish, so
the `±Infinity` case is unreachable and both are folded into `none`. -/
noncomputable def jdiv : JsNum → JsNum → JsNum
  | some a, some b => if b = 0 then none else some (a / b)
  | _, _ => none

/-- `Math.sqrt`: NaN on NaN and on negative inputs. -/
noncomputable def jsqrt : JsNum → JsNum
  | some a => if a < 0 then none else some (Real.sqrt a)
  | none => none

/-- JS `<`: any comparison involving NaN is false. -/
def jlt : JsNum → JsNum → Prop
  | some a, some b => a < b
  | _, _ => False

/-- The kinematic fields of a particle in the NaN-aware model. -/
structure JParticle where
  x : JsNum
  y : JsNum
  vx : JsNum
  vy : JsNum

/-- The kinematic part of one `updateParticles` iteration in the NaN-aware
model: position advance, boundary bounce (`particle.vx *= -1`), pointer
attraction with its unguarded division by `distance`.  Mirrors `stepKin`
operation for operation. -/
noncomputable def jstep (m : JsNum × JsNum) (w h : JsNum) (p : JParticle) : JParticle :=
  let x1 := jadd p.x p.vx
  let y1 := jadd p.y p.vy
  let vx1 := if jlt x1 (some 0) ∨ jlt w x1 then jmul p.vx (some (-1)) else p.vx
  let vy1 := if jlt y1 (some 0) ∨ jlt h y1 then jmul p.vy (some (-1)) else p.vy
  let dx := jsub m.1 x1
  let dy := jsub m.2 y1
  let dist := jsqrt (jadd (jmul dx dx) (jmul dy dy))
  let force := jdiv (jsub (some 150) dist) (some 150)
  let vx2 := if jlt dist (some 150) then jadd vx1 (jmul (jmul (jdiv dx dist) force) (some 0.01)) else vx1
  let vy2 := if jlt dist (some 150) then jadd vy1 (jmul (jmul (jdiv dy dist) force) (some 0.01)) else vy1
  { x := x1, y := y1, vx := vx2, vy := vy2 }

/-- The trajectory of one particle's kinematic state in the NaN-aware model,
with pointer position `mseq k` during frame `k`. -/
noncomputable def jtraj (mseq : ℕ → JsNum × JsNum) (w h : JsNum) (p : JParticle) : ℕ → JParticle
  | 0 => p
  | n + 1 => jstep (mseq n) w h (jtraj mseq w h p n)

/-- The updated pool has the same length as the input pool. -/
theorem updateFrom_length (m : ℝ × ℝ) (w h : ℝ) :
    ∀ (i : ℕ) (ps : List Particle), (updateFrom m w h i ps).length = ps.length
  | _, [] => rfl
  | i, _ :: rest => by
    simp [updateFrom, updateFrom_length m w h (i + 1) rest]

/-- Pointwise description of the update pass: the particle at index `j` of
`updateFrom m w h i ps` is the kinematic update of `ps[j]`, with its
connection list rebuilt by scanning the pre-update particles after it. -/
theorem updateFrom_getElem? (m : ℝ × ℝ) (w h : ℝ) :
    ∀ (i j : ℕ) (ps : List Particle),
    (updateFrom m w h i ps)[j]? =
      (ps[j]?).map (fun p =>
        { stepKin m w h p with
          connections := connScan (stepKin m w h p) (i + j + 1) (ps.drop (j + 1)) })
  | _, _, [] => by simp [updateFrom]
  | i, 0, p :: rest => by simp [updateFrom]
  | i, j + 1, p :: rest => by
    simp only [updateFrom, List.getElem?_cons_succ, List.drop_succ_cons,
      updateFrom_getElem? m w h (i + 1) j rest]
    simp only [show i + 1 + j = i + (j + 1) from by omega]

/-- Pointwise description of `updateParticles` (the `i = 0` instance). -/
theorem updateParticles_getElem? (m : ℝ × ℝ) (w h : ℝ) (ps : List Particle) (j : ℕ) :
    (updateParticles m w h ps)[j]? =
      (ps[j]?).map (fun p =>
        { stepKin m w h p with
          connections := connScan (stepKin m w h p) (j + 1) (ps.drop (j + 1)) }) := by
  simp only [updateParticles, updateFrom_getElem?, Nat.zero_add]

/-- Pointwise description of pool creation. -/
theorem createParticles_getElem? (w h : ℕ) (r : ℕ → ℝ) (i : ℕ) :
    (createParticles w h r)[i]? =
      if i < particleCount w h then some (mkParticle w h r i) else none := by
  by_cases hi : i < particleCount w h
  · simp [createParticles, List.getElem?_map, List.getElem?_range, hi]
  · simp [createParticles, List.getElem?_map, List.getElem?_range, hi]
    omega

/-- Membership in a connection scan: exactly the nearby particles of the
scanned suffix, at their absolute indices. -/
theorem mem_connScan (p : Particle) :
    ∀ (j0 : ℕ) (qs : List Particle) (j : ℕ),
    j ∈ connScan p j0 qs ↔
      ∃ t q, qs[t]? = some q ∧ j = j0 + t ∧
        Real.sqrt ((p.x - q.x) ^ 2 + (p.y - q.y) ^ 2) < 120
  | j0, [], j => by simp [connScan]
  | j0, q :: rest, j => by
    simp only [connScan]
    split_ifs with hd
    · simp only [List.mem_cons, mem_connScan p (j0 + 1) rest j]
      constructor
      · rintro (rfl | ⟨t, q', hq, rfl, hdist⟩)
        · exact ⟨0, q, by simp, by omega, hd⟩
        · exact ⟨t + 1, q', by simpa using hq, by omega, hdist⟩
      · rintro ⟨t, q', hq, rfl, hdist⟩
        cases t with
        | zero => left; omega
        | succ t' =>
          right
          exact ⟨t', q', by simpa using hq, by omega, hdist⟩
    · simp only [mem_connScan p (j0 + 1) rest j]
      constructor
      · rintro ⟨t, q', hq, rfl, hdist⟩
        exact ⟨t + 1, q', by simpa using hq, by omega, hdist⟩
      · rintro ⟨t, q', hq, rfl, hdist⟩
        cases t with
        | zero =>
          simp only [List.getElem?_cons_zero, Option.some.injEq] at hq
          subst hq
          exact absurd hdist hd
        | succ t' =>
          exact ⟨t', q', by simpa using hq, by omega, hdist⟩

/-- A connection scan records no index twice. -/
theorem connScan_nodup (p : Particle) :
    ∀ (j0 : ℕ) (qs : List Particle), (connScan p j0 qs).Nodup
  | _, [] => by simp [connScan]
  | j0, q :: rest => by
    simp only [connScan]
    split_ifs with hd
    · refine List.nodup_cons.mpr ⟨?_, connScan_nodup p (j0 + 1) rest⟩
      intro hmem
      obtain ⟨t, q', _, habs, _⟩ := (mem_connScan p (j0 + 1) rest j0).mp hmem
      omega
    · exact connScan_nodup p (j0 + 1) rest

/-- C7: if the canvas ref is null or the 2D drawing context cannot be
acquired, the mount effect creates no particles, schedules no animation
frame, registers no listeners, and (being a total function) raises no
error: initialization is a silent no-op. -/
theorem c7_ctx_unavailable (hasCanvas hasCtx : Bool) (w h : ℕ) (r : ℕ → ℝ) :
    (initEffect hasCanvas false w h r).pool = [] ∧
    (initEffect hasCanvas false w h r).pendingFrame = none ∧
    (initEffect hasCanvas false w h r).animationRef = none ∧
    (initEffect hasCanvas false w h r).mouseListener = false ∧
    (initEffect hasCanvas false w h r).resizeListener = false ∧
    initEffect hasCanvas false w h r = inertState ∧
    initEffect false hasCtx w h r = inertState := by
  cases hasCanvas <;> simp [initEffect, inertState]

/-- C6: `handleResize` adopts the new dimensions and regenerates the pool
from scratch by the count formula; the resulting pool is a function of the
new dimensions and the random stream only, hence independent of (and
preserving nothing from) the pre-resize pool. -/
theorem c6_resize_regenerates (s s' : CompState) (w h : ℕ) (r : ℕ → ℝ) :
    (handleResize s w h r).width = w ∧
    (handleResize s w h r).height = h ∧
    (handleResize s w h r).pool = createParticles w h r ∧
    (handleResize s w h r).pool.length = particleCount w h ∧
    (handleResize s w h r).pool = (handleResize s' w h r).pool := by
  refine ⟨rfl, rfl, rfl, ?_, rfl⟩
  simp [handleResize, createParticles]

/-- Teardown never leaves pending frames when the recorded handle matches
the scheduled one; helper fact justifying the hypothesis of the C5 theorem:
every state produced by the mount effect satisfies it. -/
theorem initEffect_pending_matches (hasCanvas hasCtx : Bool) (w h : ℕ) (r : ℕ → ℝ) :
    (initEffect hasCanvas hasCtx w h r).pendingFrame = none ∨
      (initEffect hasCanvas hasCtx w h r).pendingFrame =
        (initEffect hasCanvas hasCtx w h r).animationRef := by
  cases hasCanvas <;> cases hasCtx <;> simp [initEffect, inertState]

/-- C5: teardown is idempotent and total: running the cleanup twice gives
the same state as running it once; on any state whose pending frame is the
recorded handle (true of every state the effect produces, including the
inert state of an initialization that never completed) it leaves no pending
animation-frame callback and no listeners; and cleaning up the inert state
of a failed initialization is a harmless no-op. -/
theorem c5_teardown_idempotent (s : CompState)
    (hs : s.pendingFrame = none ∨ s.pendingFrame = s.animationRef) :
    cleanup (cleanup s) = cleanup s ∧
    (cleanup s).pendingFrame = none ∧
    (cleanup s).mouseListener = false ∧
    (cleanup s).resizeListener = false ∧
    cleanup inertState = inertState := by
  obtain ⟨wd, ht, pl, pf, ar, ml, rl⟩ := s
  rcases ar with _ | id <;> rcases pf with _ | pid <;>
    simp_all [cleanup, inertState]

/-- Witness for C5 at a concrete state: the inert state of a component whose
initialization never completed. -/
theorem c5_teardown_idempotent_witness :
    (inertState.pendingFrame = none ∨ inertState.pendingFrame = inertState.animationRef) ∧
    (cleanup (cleanup inertState) = cleanup inertState ∧
      (cleanup inertState).pendingFrame = none ∧
      (cleanup inertState).mouseListener = false ∧
      (cleanup inertState).resizeListener = false ∧
      cleanup inertState = inertState) :=
  ⟨Or.inl rfl, c5_teardown_idempotent inertState (Or.inl rfl)⟩

/-- C1: the pool created at initialization and on resize has exactly
`min 100 ((w * h) / 15000)` particles (floor division); a zero-area viewport
yields 0 particles (and the count, a natural number, is never negative);
a 1500×1000 viewport yields 100 particles and a 300×200 viewport yields 4. -/
theorem c1_pool_size (w h : ℕ) (r : ℕ → ℝ) :
    (createParticles w h r).length = min 100 (w * h / 15000) ∧
    (createParticles w 0 r).length = 0 ∧
    (createParticles 0 h r).length = 0 ∧
    (createParticles 1500 1000 r).length = 100 ∧
    (createParticles 300 200 r).length = 4 := by
  refine ⟨?_, ?_, ?_, ?_, ?_⟩ <;>
    simp [createParticles, particleCount]

/-- C8: with `Math.random()` draws in `[0, 1)`, every freshly created
particle has position in `[0, width) × [0, height)`, velocity components in
`[-0.25, 0.25]`, size in `[1, 4]` and opacity in `[0.2, 0.7]`, and an empty
connection list; and the per-frame update never modifies size or opacity of
any particle of any pool. -/
theorem c8_seed_ranges (w h : ℕ) (r : ℕ → ℝ) (hr : ∀ k, 0 ≤ r k ∧ r k < 1)
    (i : ℕ) (p : Particle) (hp : (createParticles w h r)[i]? = some p) :
    (0 ≤ p.x ∧ p.x < w) ∧ (0 ≤ p.y ∧ p.y < h) ∧
    (-(1/4) ≤ p.vx ∧ p.vx ≤ 1/4) ∧ (-(1/4) ≤ p.vy ∧ p.vy ≤ 1/4) ∧
    (1 ≤ p.size ∧ p.size ≤ 4) ∧ (1/5 ≤ p.opacity ∧ p.opacity ≤ 7/10) ∧
    p.connections = [] ∧
    (∀ (m : ℝ × ℝ) (ww hh : ℝ) (ps : List Particle) (j : ℕ),
      ((updateParticles m ww hh ps)[j]?).map Particle.size = (ps[j]?).map Particle.size ∧
      ((updateParticles m ww hh ps)[j]?).map Particle.opacity = (ps[j]?).map Particle.opacity) := by
  rw [createParticles_getElem?] at hp
  split_ifs at hp with hcount
  · obtain rfl : mkParticle w h r i = p := by injection hp
    have hpos : 0 < particleCount w h := lt_of_le_of_lt (Nat.zero_le i) hcount
    have hwh : 15000 ≤ w * h := by
      by_contra hcon
      have : w * h / 15000 = 0 := Nat.div_eq_of_lt (by omega)
      simp [particleCount, this] at hpos
    have hw1 : 1 ≤ w := by
      rcases Nat.eq_zero_or_pos w with h0 | h1
      · subst h0; omega
      · exact h1
    have hh1 : 1 ≤ h := by
      rcases Nat.eq_zero_or_pos h with h0 | h1
      · subst h0; simp at hwh
      · exact h1
    have hwR : (1 : ℝ) ≤ (w : ℝ) := by exact_mod_cast hw1
    have hhR : (1 : ℝ) ≤ (h : ℝ) := by exact_mod_cast hh1
    have hx := hr (6 * i)
    have hy := hr (6 * i + 1)
    have hvx := hr (6 * i + 2)
    have hvy := hr (6 * i + 3)
    have hsz := hr (6 * i + 4)
    have hop := hr (6 * i + 5)
    have hw0 : (0 : ℝ) < (w : ℝ) := lt_of_lt_of_le one_pos hwR
    have hh0 : (0 : ℝ) < (h : ℝ) := lt_of_lt_of_le one_pos hhR
    refine ⟨⟨?_, ?_⟩, ⟨?_, ?_⟩, ⟨?_, ?_⟩, ⟨?_, ?_⟩, ⟨?_, ?_⟩, ⟨?_, ?_⟩, rfl, ?_⟩
    · exact mul_nonneg hx.1 (Nat.cast_nonneg w)
    · simp only [mkParticle]
      simpa using mul_lt_mul_of_pos_right hx.2 hw0
    · exact mul_nonneg hy.1 (Nat.cast_nonneg h)
    · simp only [mkParticle]
      simpa using mul_lt_mul_of_pos_right hy.2 hh0
    · simp only [mkParticle]; linarith [hvx.1, hvx.2]
    · simp only [mkParticle]; linarith [hvx.1, hvx.2]
    · simp only [mkParticle]; linarith [hvy.1, hvy.2]
    · simp only [mkParticle]; linarith [hvy.1, hvy.2]
    · simp only [mkParticle]; linarith [hsz.1, hsz.2]
    · simp only [mkParticle]; linarith [hsz.1, hsz.2]
    · simp only [mkParticle]; linarith [hop.1, hop.2]
    · simp only [mkParticle]; linarith [hop.1, hop.2]
    · intro m ww hh ps j
      rw [updateParticles_getElem?]
      cases hq : ps[j]? with
      | none => simp
      | some q => simp [stepKin]

/-- Witness for C8 at a concrete input: a 1500×1000 viewport with every
random draw equal to 1/2; the first particle sits at (750, 500) with zero
velocity, size 5/2 and opacity 9/20. -/
theorem c8_seed_ranges_witness :
    (∀ k : ℕ, 0 ≤ (fun _ : ℕ => (1/2 : ℝ)) k ∧ (fun _ : ℕ => (1/2 : ℝ)) k < 1) ∧
    ((createParticles 1500 1000 (fun _ : ℕ => (1/2 : ℝ)))[0]? =
      some (mkParticle 1500 1000 (fun _ : ℕ => (1/2 : ℝ)) 0)) ∧
    (0 ≤ (mkParticle 1500 1000 (fun _ : ℕ => (1/2 : ℝ)) 0).x ∧
      (mkParticle 1500 1000 (fun _ : ℕ => (1/2 : ℝ)) 0).x < ((1500 : ℕ) : ℝ)) := by
  have hr : ∀ k : ℕ, 0 ≤ (fun _ : ℕ => (1/2 : ℝ)) k ∧ (fun _ : ℕ => (1/2 : ℝ)) k < 1 := by
    intro k; norm_num
  have hp : (createParticles 1500 1000 (fun _ : ℕ => (1/2 : ℝ)))[0]? =
      some (mkParticle 1500 1000 (fun _ : ℕ => (1/2 : ℝ)) 0) := by
    rw [createParticles_getElem?]
    norm_num [particleCount]
  exact ⟨hr, hp, (c8_seed_ranges 1500 1000 _ hr 0 _ hp).1⟩

/-- C3 (amended): in every frame's update pass, for any two particles at
indices `i < j` whose tested distance is below 120px, `j` appears in
particle `i`'s connection set, exactly once, and `i` never appears in
particle `j`'s set (no duplicate or reciprocal entries); the tested
distance is between particle `i`'s post-update position and particle `j`'s
pre-update position, since the scan runs while the pool is updated in
place.  (The index `j` may additionally appear in the sets of other
lower-indexed particles close to `j` — see the counterexample.) -/
theorem c3_connection_sets (m : ℝ × ℝ) (w h : ℝ) (ps : List Particle)
    (i j : ℕ) (p : Particle)
    (hp : (updateParticles m w h ps)[i]? = some p) :
    (j ∈ p.connections ↔
      i < j ∧ ∃ q, ps[j]? = some q ∧
        Real.sqrt ((p.x - q.x) ^ 2 + (p.y - q.y) ^ 2) < 120) ∧
    (j ∈ p.connections → p.connections.count j = 1) ∧
    (∀ q', (updateParticles m w h ps)[j]? = some q' →
      j ∈ p.connections → i ∉ q'.connections) := by
  rw [updateParticles_getElem?] at hp
  cases hp0 : ps[i]? with
  | none => rw [hp0] at hp; simp at hp
  | some p0 =>
    rw [hp0] at hp
    simp only [Option.map_some'] at hp
    injection hp with hp
    subst hp
    have hmem : ∀ k, k ∈ connScan (stepKin m w h p0) (i + 1) (ps.drop (i + 1)) ↔
        i < k ∧ ∃ q, ps[k]? = some q ∧
          Real.sqrt (((stepKin m w h p0).x - q.x) ^ 2 +
            ((stepKin m w h p0).y - q.y) ^ 2) < 120 := by
      intro k
      rw [mem_connScan]
      constructor
      · rintro ⟨t, q, hq, rfl, hd⟩
        rw [List.getElem?_drop] at hq
        exact ⟨by omega, q, hq, hd⟩
      · rintro ⟨hik, q, hq, hd⟩
        refine ⟨k - (i + 1), q, ?_, by omega, hd⟩
        rw [List.getElem?_drop, show i + 1 + (k - (i + 1)) = k from by omega]
        exact hq
    refine ⟨?_, ?_, ?_⟩
    · simpa using hmem j
    · intro hj
      exact List.count_eq_one_of_mem (connScan_nodup _ _ _) (by simpa using hj)
    · intro q' hq' hj hcontra
      have hij : i < j := ((hmem j).mp (by simpa using hj)).1
      rw [updateParticles_getElem?] at hq'
      cases hq0 : ps[j]? with
      | none => rw [hq0] at hq'; simp at hq'
      | some q0 =>
        rw [hq0] at hq'
        simp only [Option.map_some'] at hq'
        injection hq' with hq'
        subst hq'
        simp only at hcontra
        obtain ⟨t, _, _, habs, _⟩ := (mem_connScan _ _ _ _).mp hcontra
        omega

/-- C3 counterexample: with three mutually-close particles at (0,0), (50,0)
and (100,0) (all pairwise distances below 120px) and the pointer far away,
the tested pair (0, 2) has distance below 120px and index 2 appears in
particle 0's connection set — but index 2 also appears in particle 1's
connection set, so the higher index of a close pair does not appear "in no
other particle's connection set" as literally claimed. -/
theorem c3_not_exclusive_counterexample :
    ∃ a b : Particle,
      (updateParticles (100000, 0) 100000 100000
        [⟨0, 0, 0, 0, 1, 1, []⟩, ⟨50, 0, 0, 0, 1, 1, []⟩,
          ⟨100, 0, 0, 0, 1, 1, []⟩])[0]? = some a ∧
      (updateParticles (100000, 0) 100000 100000
        [⟨0, 0, 0, 0, 1, 1, []⟩, ⟨50, 0, 0, 0, 1, 1, []⟩,
          ⟨100, 0, 0, 0, 1, 1, []⟩])[1]? = some b ∧
      Real.sqrt ((a.x - 100) ^ 2 + (a.y - 0) ^ 2) < 120 ∧
      2 ∈ a.connections ∧ 2 ∈ b.connections ∧ (1 : ℕ) ≠ 0 := by
  refine ⟨⟨0, 0, 0, 0, 1, 1, [1, 2]⟩, ⟨50, 0, 0, 0, 1, 1, [2]⟩, ?_, ?_, ?_, ?_, ?_, ?_⟩
  · rw [updateParticles_getElem?]
    norm_num [stepKin, connScan, Real.sqrt_lt', Real.le_sqrt']
  · rw [updateParticles_getElem?]
    norm_num [stepKin, connScan, Real.sqrt_lt', Real.le_sqrt']
  · norm_num [Real.sqrt_lt']
  · norm_num
  · norm_num
  · norm_num

/-- Witness for the amended C3 at a concrete input: the same three-particle
pool as the counterexample, pair (0, 2). -/
theorem c3_connection_sets_witness :
    ((updateParticles (100000, 0) 100000 100000
        [⟨0, 0, 0, 0, 1, 1, []⟩, ⟨50, 0, 0, 0, 1, 1, []⟩,
          ⟨100, 0, 0, 0, 1, 1, []⟩])[0]? = some ⟨0, 0, 0, 0, 1, 1, [1, 2]⟩) ∧
    ((2 ∈ (Particle.mk 0 0 0 0 1 1 [1, 2]).connections ↔
      0 < 2 ∧ ∃ q, ([⟨0, 0, 0, 0, 1, 1, []⟩, ⟨50, 0, 0, 0, 1, 1, []⟩,
          ⟨100, 0, 0, 0, 1, 1, []⟩] : List Particle)[2]? = some q ∧
        Real.sqrt (((Particle.mk 0 0 0 0 1 1 [1, 2]).x - q.x) ^ 2 +
          ((Particle.mk 0 0 0 0 1 1 [1, 2]).y - q.y) ^ 2) < 120) ∧
    (2 ∈ (Particle.mk 0 0 0 0 1 1 [1, 2]).connections →
      (Particle.mk 0 0 0 0 1 1 [1, 2]).connections.count 2 = 1) ∧
    (∀ q', (updateParticles (100000, 0) 100000 100000
        [⟨0, 0, 0, 0, 1, 1, []⟩, ⟨50, 0, 0, 0, 1, 1, []⟩,
          ⟨100, 0, 0, 0, 1, 1, []⟩])[2]? = some q' →
      2 ∈ (Particle.mk 0 0 0 0 1 1 [1, 2]).connections →
      0 ∉ q'.connections)) := by
  have hp : (updateParticles (100000, 0) 100000 100000
      [⟨0, 0, 0, 0, 1, 1, []⟩, ⟨50, 0, 0, 0, 1, 1, []⟩,
        ⟨100, 0, 0, 0, 1, 1, []⟩])[0]? = some ⟨0, 0, 0, 0, 1, 1, [1, 2]⟩ := by
    rw [updateParticles_getElem?]
    norm_num [stepKin, connScan, Real.sqrt_lt', Real.le_sqrt']
  exact ⟨hp, c3_connection_sets (100000, 0) 100000 100000 _ 0 2 _ hp⟩

/-- C10: every index recorded in an updated particle's connection list is
strictly greater than the particle's own index and strictly below the pool
length, so the draw pass's lookup `particlesRef.current[connectedIndex]`
always hits an existing particle of the current pool. -/
theorem c10_connection_indices_in_bounds (m : ℝ × ℝ) (w h : ℝ) (ps : List Particle)
    (i : ℕ) (p : Particle) (hp : (updateParticles m w h ps)[i]? = some p)
    (j : ℕ) (hj : j ∈ p.connections) :
    i < j ∧ j < ps.length ∧ j < (updateParticles m w h ps).length ∧
      ((updateParticles m w h ps)[j]?).isSome := by
  rw [updateParticles_getElem?] at hp
  cases hp0 : ps[i]? with
  | none => rw [hp0] at hp; simp at hp
  | some p0 =>
    rw [hp0] at hp
    simp only [Option.map_some'] at hp
    injection hp with hp
    subst hp
    simp only at hj
    obtain ⟨t, q, hq, rfl, _⟩ := (mem_connScan _ _ _ _).mp hj
    rw [List.getElem?_drop] at hq
    have hlen : i + 1 + t < ps.length := by
      by_contra hcon
      rw [List.getElem?_eq_none (by omega)] at hq
      exact Option.noConfusion hq
    have hulen : (updateParticles m w h ps).length = ps.length :=
      updateFrom_length m w h 0 ps
    refine ⟨by omega, hlen, by omega, ?_⟩
    have hlt : i + 1 + t < (updateParticles m w h ps).length := by omega
    simp [List.getElem?_eq_getElem hlt]

/-- Witness for C10 at a concrete input: two particles 50px apart, pointer
far away; particle 0's connection list is `[1]` and the lookup of index 1
is in bounds. -/
theorem c10_connection_indices_in_bounds_witness :
    ((updateParticles (100000, 0) 100000 100000
        [⟨0, 0, 0, 0, 1, 1, []⟩, ⟨50, 0, 0, 0, 1, 1, []⟩])[0]? =
      some ⟨0, 0, 0, 0, 1, 1, [1]⟩) ∧
    (1 ∈ ([1] : List ℕ)) ∧
    (0 < 1 ∧ 1 < ([(⟨0, 0, 0, 0, 1, 1, []⟩ : Particle),
        ⟨50, 0, 0, 0, 1, 1, []⟩] : List Particle).length ∧
      1 < (updateParticles (100000, 0) 100000 100000
        [⟨0, 0, 0, 0, 1, 1, []⟩, ⟨50, 0, 0, 0, 1, 1, []⟩]).length ∧
      ((updateParticles (100000, 0) 100000 100000
        [⟨0, 0, 0, 0, 1, 1, []⟩, ⟨50, 0, 0, 0, 1, 1, []⟩])[1]?).isSome) := by
  have hp : (updateParticles (100000, 0) 100000 100000
      [⟨0, 0, 0, 0, 1, 1, []⟩, ⟨50, 0, 0, 0, 1, 1, []⟩])[0]? =
      some ⟨0, 0, 0, 0, 1, 1, [1]⟩ := by
    rw [updateParticles_getElem?]
    norm_num [stepKin, connScan, Real.sqrt_lt', Real.le_sqrt']
  exact ⟨hp, by norm_num,
    c10_connection_indices_in_bounds (100000, 0) 100000 100000 _ 0 _ hp 1 (by norm_num)⟩

/-- C4: in every frame's update, a particle's new velocity is exactly its
post-bounce velocity plus — when the distance `d` to the last-known pointer
position is below 150px — the attraction term `(d_axis / d) * ((150 - d) / 150) * 0.01`
per axis, with no damping or clamping; at distance 150px or more the
attraction step leaves the (post-bounce) velocity unchanged. -/
theorem c4_pointer_attraction (m : ℝ × ℝ) (w h : ℝ) (ps : List Particle)
    (i : ℕ) (p0 : Particle) (hp : ps[i]? = some p0)
    (bvx bvy d : ℝ)
    (hbvx : bvx = if p0.x + p0.vx < 0 ∨ p0.x + p0.vx > w then -p0.vx else p0.vx)
    (hbvy : bvy = if p0.y + p0.vy < 0 ∨ p0.y + p0.vy > h then -p0.vy else p0.vy)
    (hd : d = Real.sqrt ((m.1 - (p0.x + p0.vx)) * (m.1 - (p0.x + p0.vx)) +
      (m.2 - (p0.y + p0.vy)) * (m.2 - (p0.y + p0.vy)))) :
    ∃ p, (updateParticles m w h ps)[i]? = some p ∧
      (150 ≤ d → p.vx = bvx ∧ p.vy = bvy) ∧
      (d < 150 →
        p.vx = bvx + (m.1 - (p0.x + p0.vx)) / d * ((150 - d) / 150) * 0.01 ∧
        p.vy = bvy + (m.2 - (p0.y + p0.vy)) / d * ((150 - d) / 150) * 0.01) := by
  subst hbvx hbvy hd
  refine ⟨_, by rw [updateParticles_getElem?, hp, Option.map_some'], ?_, ?_⟩
  · intro hge
    constructor
    · show (stepKin m w h p0).vx = _
      simp only [stepKin]
      rw [if_neg (not_lt.mpr hge)]
    · show (stepKin m w h p0).vy = _
      simp only [stepKin]
      rw [if_neg (not_lt.mpr hge)]
  · intro hlt
    constructor
    · show (stepKin m w h p0).vx = _
      simp only [stepKin]
      rw [if_pos hlt]
    · show (stepKin m w h p0).vy = _
      simp only [stepKin]
      rw [if_pos hlt]

/-- Witness for C4 at a concrete input: one particle at the origin with zero
velocity, pointer at (30, 40), so the distance is exactly 50 < 150. -/
theorem c4_pointer_attraction_witness :
    (([(⟨0, 0, 0, 0, 1, 1, []⟩ : Particle)] : List Particle)[0]? =
      some ⟨0, 0, 0, 0, 1, 1, []⟩) ∧
    ((0 : ℝ) = if (0 : ℝ) + 0 < 0 ∨ (0 : ℝ) + 0 > 1000 then -(0 : ℝ) else (0 : ℝ)) ∧
    ((50 : ℝ) = Real.sqrt (((30 : ℝ) - (0 + 0)) * ((30 : ℝ) - (0 + 0)) +
      ((40 : ℝ) - (0 + 0)) * ((40 : ℝ) - (0 + 0)))) ∧
    (∃ p, (updateParticles ((30 : ℝ), (40 : ℝ)) 1000 1000
        [⟨0, 0, 0, 0, 1, 1, []⟩])[0]? = some p ∧
      ((150 : ℝ) ≤ 50 → p.vx = 0 ∧ p.vy = 0) ∧
      ((50 : ℝ) < 150 →
        p.vx = 0 + ((30 : ℝ) - (0 + 0)) / 50 * ((150 - 50) / 150) * 0.01 ∧
        p.vy = 0 + ((40 : ℝ) - (0 + 0)) / 50 * ((150 - 50) / 150) * 0.01)) := by
  have hsq : (50 : ℝ) = Real.sqrt (((30 : ℝ) - (0 + 0)) * ((30 : ℝ) - (0 + 0)) +
      ((40 : ℝ) - (0 + 0)) * ((40 : ℝ) - (0 + 0))) := by
    rw [show ((30 : ℝ) - (0 + 0)) * ((30 : ℝ) - (0 + 0)) +
        ((40 : ℝ) - (0 + 0)) * ((40 : ℝ) - (0 + 0)) = 50 ^ 2 from by norm_num,
      Real.sqrt_sq (by norm_num : (0 : ℝ) ≤ 50)]
  have hbv : (0 : ℝ) = if (0 : ℝ) + 0 < 0 ∨ (0 : ℝ) + 0 > 1000 then -(0 : ℝ) else (0 : ℝ) := by
    norm_num
  exact ⟨rfl, hbv, hsq,
    c4_pointer_attraction ((30 : ℝ), (40 : ℝ)) 1000 1000 [⟨0, 0, 0, 0, 1, 1, []⟩] 0
      ⟨0, 0, 0, 0, 1, 1, []⟩ rfl 0 0 50 (by norm_num) (by norm_num) hsq⟩

/-- NaN propagation: once a particle's x-velocity is NaN, one kinematic step
keeps it NaN (the NaN position makes every comparison false and every
derived quantity NaN). -/
theorem jstep_vx_nan (m : JsNum × JsNum) (w h : JsNum) (p : JParticle)
    (hvx : p.vx = none) : (jstep m w h p).vx = none := by
  have hx1 : jadd p.x p.vx = none := by rw [hvx]; cases p.x <;> rfl
  have hdx : jsub m.1 (jadd p.x p.vx) = none := by rw [hx1]; cases m.1 <;> rfl
  have hmulnn : ∀ z : JsNum, jmul none z = none := fun z => rfl
  have haddn : ∀ z : JsNum, jadd none z = none := fun z => rfl
  have hvx1 : (if jlt (jadd p.x p.vx) (some 0) ∨ jlt w (jadd p.x p.vx)
      then jmul p.vx (some (-1)) else p.vx) = none := by
    split_ifs <;> simp [hvx, jmul]
  simp only [jstep, hdx, hmulnn, haddn, jsqrt]
  rw [if_neg (fun hcon => hcon : ¬ jlt none (some 150))]
  exact hvx1

/-- NaN propagation for the y-velocity. -/
theorem jstep_vy_nan (m : JsNum × JsNum) (w h : JsNum) (p : JParticle)
    (hvy : p.vy = none) : (jstep m w h p).vy = none := by
  have hy1 : jadd p.y p.vy = none := by rw [hvy]; cases p.y <;> rfl
  have hdy : jsub m.2 (jadd p.y p.vy) = none := by rw [hy1]; cases m.2 <;> rfl
  have hmulnn : ∀ z : JsNum, jmul none z = none := fun z => rfl
  have hmuln : ∀ z : JsNum, jmul z none = none := fun z => by cases z <;> rfl
  have haddn : ∀ z : JsNum, jadd z none = none := fun z => by cases z <;> rfl
  have hvy1 : (if jlt (jadd p.y p.vy) (some 0) ∨ jlt h (jadd p.y p.vy)
      then jmul p.vy (some (-1)) else p.vy) = none := by
    split_ifs <;> simp [hvy, jmul]
  simp only [jstep, hdy, hmulnn, hmuln, haddn, jsqrt]
  rw [if_neg (fun hcon => hcon : ¬ jlt none (some 150))]
  exact hvy1

/-- The triggering frame: when the pointer coincides with the particle's
(post-move) position, the distance is exactly 0, the `distance < 150` guard
passes, and `dx / distance = 0 / 0` is NaN, which the `+=` writes into both
velocity components. -/
theorem jstep_nan_trigger (m : JsNum × JsNum) (w h : JsNum) (p : JParticle)
    (a b : ℝ) (hx : jadd p.x p.vx = some a) (hy : jadd p.y p.vy = some b)
    (hmx : m.1 = some a) (hmy : m.2 = some b) :
    (jstep m w h p).vx = none ∧ (jstep m w h p).vy = none := by
  have hdx : jsub m.1 (jadd p.x p.vx) = some 0 := by
    rw [hmx, hx]; simp [jsub]
  have hdy : jsub m.2 (jadd p.y p.vy) = some 0 := by
    rw [hmy, hy]; simp [jsub]
  have hdist : jsqrt (jadd (jmul (some 0) (some 0)) (jmul (some 0) (some 0))) = some 0 := by
    simp [jmul, jadd, jsqrt, Real.sqrt_zero]
  have hdiv : jdiv (some (0 : ℝ)) (some 0) = none := by simp [jdiv]
  have haddn : ∀ z : JsNum, jadd z none = none := fun z => by cases z <;> rfl
  have hmulnn : ∀ z : JsNum, jmul none z = none := fun z => rfl
  have h150 : (0 : ℝ) < 150 := by norm_num
  simp only [jstep, hdx, hdy, hdist, hdiv, hmulnn, haddn, jlt]
  rw [if_pos h150, if_pos h150]
  exact ⟨rfl, rfl⟩

/-- C9: if the last-known pointer position coincides exactly with a
particle's (post-move) position, the unguarded division `dx / distance`
with `distance = 0` makes both velocity components NaN on that frame, and
they stay NaN on every subsequent frame regardless of later pointer
positions. -/
theorem c9_nan_velocity (mseq : ℕ → JsNum × JsNum) (w h : JsNum)
    (p : JParticle) (a b : ℝ)
    (hx : jadd p.x p.vx = some a) (hy : jadd p.y p.vy = some b)
    (hmx : (mseq 0).1 = some a) (hmy : (mseq 0).2 = some b) :
    ∀ n, 0 < n →
      (jtraj mseq w h p n).vx = none ∧ (jtraj mseq w h p n).vy = none := by
  intro n hn
  induction n with
  | zero => omega
  | succ k ih =>
    rcases Nat.eq_zero_or_pos k with h0 | hk
    · subst h0
      show (jstep (mseq 0) w h (jtraj mseq w h p 0)).vx = none ∧
        (jstep (mseq 0) w h (jtraj mseq w h p 0)).vy = none
      exact jstep_nan_trigger (mseq 0) w h p a b hx hy hmx hmy
    · obtain ⟨ivx, ivy⟩ := ih hk
      exact ⟨jstep_vx_nan (mseq k) w h _ ivx, jstep_vy_nan (mseq k) w h _ ivy⟩

/-- Witness for C9 at a concrete input: a particle at (5, 7) with zero
velocity and the pointer at (5, 7); after one frame both velocity
components are NaN. -/
theorem c9_nan_velocity_witness :
    (jadd (some 5) (some 0) = some (5 : ℝ)) ∧
    (jadd (some 7) (some 0) = some (7 : ℝ)) ∧
    ((jtraj (fun _ => (some 5, some 7)) (some 100) (some 100)
        ⟨some 5, some 7, some 0, some 0⟩ 1).vx = none ∧
      (jtraj (fun _ => (some 5, some 7)) (some 100) (some 100)
        ⟨some 5, some 7, some 0, some 0⟩ 1).vy = none) := by
  have ha : jadd (some 5) (some 0) = some (5 : ℝ) := by simp [jadd]
  have hb : jadd (some 7) (some 0) = some (7 : ℝ) := by simp [jadd]
  exact ⟨ha, hb,
    c9_nan_velocity (fun _ => (some 5, some 7)) (some 100) (some 100)
      ⟨some 5, some 7, some 0, some 0⟩ 5 7 ha hb rfl rfl 1 (by norm_num)⟩

/-- A coordinate is bounded by the Euclidean norm. -/
theorem abs_le_sqrt_self_add (a b : ℝ) : |a| ≤ Real.sqrt (a * a + b * b) := by
  rw [← Real.sqrt_mul_self_eq_abs a]
  exact Real.sqrt_le_sqrt (le_add_of_nonneg_right (mul_self_nonneg b))

/-- The second coordinate is bounded by the Euclidean norm. -/
theorem abs_le_sqrt_add_self (b a : ℝ) : |b| ≤ Real.sqrt (a * a + b * b) := by
  rw [← Real.sqrt_mul_self_eq_abs b]
  exact Real.sqrt_le_sqrt (le_add_of_nonneg_left (mul_self_nonneg a))

/-- The generic attraction term is at most 0.01 in magnitude. -/
theorem attr_term_abs_le (a d : ℝ) (hd : 0 ≤ d) (hlt : d < 150) (habs : |a| ≤ d) :
    |a / d * ((150 - d) / 150) * 0.01| ≤ 1 / 100 := by
  rcases eq_or_lt_of_le hd with h0 | h0
  · rw [← h0] at habs ⊢
    have ha : a = 0 := abs_nonpos_iff.mp (by simpa using habs)
    simp [ha]
  · have h1 : |a / d| ≤ 1 := by
      rw [abs_div, abs_of_pos h0]
      exact (div_le_one h0).mpr habs
    have h2 : 0 ≤ (150 - d) / 150 := div_nonneg (by linarith) (by norm_num)
    have h3 : (150 - d) / 150 ≤ 1 := by
      rw [div_le_one (by norm_num : (0 : ℝ) < 150)]
      linarith
    have h4 : |a / d * ((150 - d) / 150) * 0.01| =
        |a / d| * ((150 - d) / 150) * 0.01 := by
      rw [abs_mul, abs_mul, abs_of_nonneg h2,
        abs_of_pos (by norm_num : (0 : ℝ) < 0.01)]
    rw [h4]
    nlinarith [abs_nonneg (a / d)]

/-- The x-attraction increment is at most 0.01 in magnitude,
unconditionally. -/
theorem attrX_abs_le (m : ℝ × ℝ) (x1 y1 : ℝ) : |attrX m x1 y1| ≤ 1 / 100 := by
  simp only [attrX]
  split_ifs with hlt
  · exact attr_term_abs_le _ _ (Real.sqrt_nonneg _) hlt (abs_le_sqrt_self_add _ _)
  · norm_num

/-- The y-attraction increment is at most 0.01 in magnitude,
unconditionally. -/
theorem attrY_abs_le (m : ℝ × ℝ) (x1 y1 : ℝ) : |attrY m x1 y1| ≤ 1 / 100 := by
  simp only [attrY]
  split_ifs with hlt
  · exact attr_term_abs_le _ _ (Real.sqrt_nonneg _) hlt (abs_le_sqrt_add_self _ _)
  · norm_num

/-- When the particle has crossed the left edge and the pointer is inside
the viewport, the x-attraction pulls it back in (is nonnegative). -/
theorem attrX_nonneg (m : ℝ × ℝ) (x1 y1 : ℝ) (hx : x1 < 0) (hm : 0 ≤ m.1) :
    0 ≤ attrX m x1 y1 := by
  simp only [attrX]
  split_ifs with hlt
  · have hdx : 0 < m.1 - x1 := by linarith
    have hd : 0 ≤ Real.sqrt ((m.1 - x1) * (m.1 - x1) + (m.2 - y1) * (m.2 - y1)) :=
      Real.sqrt_nonneg _
    have hforce : 0 ≤ (150 - Real.sqrt ((m.1 - x1) * (m.1 - x1) + (m.2 - y1) * (m.2 - y1))) / 150 :=
      div_nonneg (by linarith) (by norm_num)
    exact mul_nonneg (mul_nonneg (div_nonneg hdx.le hd) hforce) (by norm_num)
  · exact le_refl 0

/-- When the particle has crossed the right edge and the pointer is inside
the viewport, the x-attraction pulls it back in (is nonpositive). -/
theorem attrX_nonpos (m : ℝ × ℝ) (x1 y1 w : ℝ) (hx : w < x1) (hm : m.1 ≤ w) :
    attrX m x1 y1 ≤ 0 := by
  simp only [attrX]
  split_ifs with hlt
  · have hdx : m.1 - x1 ≤ 0 := by linarith
    have hd : 0 ≤ Real.sqrt ((m.1 - x1) * (m.1 - x1) + (m.2 - y1) * (m.2 - y1)) :=
      Real.sqrt_nonneg _
    have hforce : 0 ≤ (150 - Real.sqrt ((m.1 - x1) * (m.1 - x1) + (m.2 - y1) * (m.2 - y1))) / 150 :=
      div_nonneg (by linarith) (by norm_num)
    have h1 : (m.1 - x1) / Real.sqrt ((m.1 - x1) * (m.1 - x1) + (m.2 - y1) * (m.2 - y1)) ≤ 0 :=
      div_nonpos_iff.mpr (Or.inr ⟨hdx, hd⟩)
    have h2 : (m.1 - x1) / Real.sqrt ((m.1 - x1) * (m.1 - x1) + (m.2 - y1) * (m.2 - y1)) *
        ((150 - Real.sqrt ((m.1 - x1) * (m.1 - x1) + (m.2 - y1) * (m.2 - y1))) / 150) ≤ 0 :=
      mul_nonpos_iff.mpr (Or.inr ⟨h1, hforce⟩)
    nlinarith
  · exact le_refl 0

/-- Symmetric statement for the bottom edge. -/
theorem attrY_nonneg (m : ℝ × ℝ) (x1 y1 : ℝ) (hy : y1 < 0) (hm : 0 ≤ m.2) :
    0 ≤ attrY m x1 y1 := by
  simp only [attrY]
  split_ifs with hlt
  · have hdy : 0 < m.2 - y1 := by linarith
    have hd : 0 ≤ Real.sqrt ((m.1 - x1) * (m.1 - x1) + (m.2 - y1) * (m.2 - y1)) :=
      Real.sqrt_nonneg _
    have hforce : 0 ≤ (150 - Real.sqrt ((m.1 - x1) * (m.1 - x1) + (m.2 - y1) * (m.2 - y1))) / 150 :=
      div_nonneg (by linarith) (by norm_num)
    exact mul_nonneg (mul_nonneg (div_nonneg hdy.le hd) hforce) (by norm_num)
  · exact le_refl 0

/-- Symmetric statement for the top edge. -/
theorem attrY_nonpos (m : ℝ × ℝ) (x1 y1 h : ℝ) (hy : h < y1) (hm : m.2 ≤ h) :
    attrY m x1 y1 ≤ 0 := by
  simp only [attrY]
  split_ifs with hlt
  · have hdy : m.2 - y1 ≤ 0 := by linarith
    have hd : 0 ≤ Real.sqrt ((m.1 - x1) * (m.1 - x1) + (m.2 - y1) * (m.2 - y1)) :=
      Real.sqrt_nonneg _
    have hforce : 0 ≤ (150 - Real.sqrt ((m.1 - x1) * (m.1 - x1) + (m.2 - y1) * (m.2 - y1))) / 150 :=
      div_nonneg (by linarith) (by norm_num)
    have h1 : (m.2 - y1) / Real.sqrt ((m.1 - x1) * (m.1 - x1) + (m.2 - y1) * (m.2 - y1)) ≤ 0 :=
      div_nonpos_iff.mpr (Or.inr ⟨hdy, hd⟩)
    have h2 : (m.2 - y1) / Real.sqrt ((m.1 - x1) * (m.1 - x1) + (m.2 - y1) * (m.2 - y1)) *
        ((150 - Real.sqrt ((m.1 - x1) * (m.1 - x1) + (m.2 - y1) * (m.2 - y1))) / 150) ≤ 0 :=
      mul_nonpos_iff.mpr (Or.inr ⟨h1, hforce⟩)
    nlinarith
  · exact le_refl 0

/-- The updated position is the old position advanced by the old velocity. -/
theorem stepKin_x (m : ℝ × ℝ) (w h : ℝ) (p : Particle) :
    (stepKin m w h p).x = p.x + p.vx := rfl

/-- The updated y-position is the old one advanced by the old velocity. -/
theorem stepKin_y (m : ℝ × ℝ) (w h : ℝ) (p : Particle) :
    (stepKin m w h p).y = p.y + p.vy := rfl

/-- The updated x-velocity is the bounced velocity plus the attraction
increment. -/
theorem stepKin_vx_eq (m : ℝ × ℝ) (w h : ℝ) (p : Particle) :
    (stepKin m w h p).vx =
      (if p.x + p.vx < 0 ∨ p.x + p.vx > w then -p.vx else p.vx) +
        attrX m (p.x + p.vx) (p.y + p.vy) := by
  simp only [stepKin, attrX]
  split_ifs <;> ring

/-- The updated y-velocity is the bounced velocity plus the attraction
increment. -/
theorem stepKin_vy_eq (m : ℝ × ℝ) (w h : ℝ) (p : Particle) :
    (stepKin m w h p).vy =
      (if p.y + p.vy < 0 ∨ p.y + p.vy > h then -p.vy else p.vy) +
        attrY m (p.x + p.vx) (p.y + p.vy) := by
  simp only [stepKin, attrY]
  split_ifs <;> ring

/-- Recovery after an x-bounce: if a particle moves out of `[0, w]` this
frame, then — provided the pointer is inside the viewport and the frame's
velocity is below the canvas width minus 0.01 — the next position advance
puts it back inside `[0, w]`. -/
theorem stepKin_x_after_bounce (m : ℝ × ℝ) (w h : ℝ) (p : Particle)
    (hm0 : 0 ≤ m.1) (hmw : m.1 ≤ w)
    (hx0 : 0 ≤ p.x) (hxw : p.x ≤ w)
    (hv : |p.vx| ≤ w - 1 / 100)
    (hout : (stepKin m w h p).x < 0 ∨ (stepKin m w h p).x > w) :
    0 ≤ (stepKin m w h p).x + (stepKin m w h p).vx ∧
      (stepKin m w h p).x + (stepKin m w h p).vx ≤ w := by
  rw [stepKin_x] at hout ⊢
  rw [stepKin_vx_eq, if_pos hout]
  have habs := abs_le.mp (attrX_abs_le m (p.x + p.vx) (p.y + p.vy))
  have heq : p.x + p.vx + (-p.vx + attrX m (p.x + p.vx) (p.y + p.vy)) =
      p.x + attrX m (p.x + p.vx) (p.y + p.vy) := by ring
  rw [heq]
  rcases hout with hlow | hhigh
  · have hA0 : 0 ≤ attrX m (p.x + p.vx) (p.y + p.vy) := attrX_nonneg m _ _ hlow hm0
    have h1 : p.x < -p.vx := by linarith
    have h2 : -p.vx ≤ |p.vx| := neg_le_abs p.vx
    exact ⟨by linarith, by linarith [habs.2]⟩
  · have hA0 : attrX m (p.x + p.vx) (p.y + p.vy) ≤ 0 := attrX_nonpos m _ _ w hhigh hmw
    have h1 : w - p.vx < p.x := by linarith
    have h2 : p.vx ≤ |p.vx| := le_abs_self p.vx
    exact ⟨by linarith [habs.1], by linarith⟩

/-- Recovery after a y-bounce. -/
theorem stepKin_y_after_bounce (m : ℝ × ℝ) (w h : ℝ) (p : Particle)
    (hm0 : 0 ≤ m.2) (hmh : m.2 ≤ h)
    (hy0 : 0 ≤ p.y) (hyh : p.y ≤ h)
    (hv : |p.vy| ≤ h - 1 / 100)
    (hout : (stepKin m w h p).y < 0 ∨ (stepKin m w h p).y > h) :
    0 ≤ (stepKin m w h p).y + (stepKin m w h p).vy ∧
      (stepKin m w h p).y + (stepKin m w h p).vy ≤ h := by
  rw [stepKin_y] at hout ⊢
  rw [stepKin_vy_eq, if_pos hout]
  have habs := abs_le.mp (attrY_abs_le m (p.x + p.vx) (p.y + p.vy))
  have heq : p.y + p.vy + (-p.vy + attrY m (p.x + p.vx) (p.y + p.vy)) =
      p.y + attrY m (p.x + p.vx) (p.y + p.vy) := by ring
  rw [heq]
  rcases hout with hlow | hhigh
  · have hA0 : 0 ≤ attrY m (p.x + p.vx) (p.y + p.vy) := attrY_nonneg m _ _ hlow hm0
    have h1 : p.y < -p.vy := by linarith
    have h2 : -p.vy ≤ |p.vy| := neg_le_abs p.vy
    exact ⟨by linarith, by linarith [habs.2]⟩
  · have hA0 : attrY m (p.x + p.vx) (p.y + p.vy) ≤ 0 := attrY_nonpos m _ _ h hhigh hmh
    have h1 : h - p.vy < p.y := by linarith
    have h2 : p.vy ≤ |p.vy| := le_abs_self p.vy
    exact ⟨by linarith [habs.1], by linarith⟩

/-- One animation frame, pointwise. -/
theorem poolTraj_succ_getElem? (mseq : ℕ → ℝ × ℝ) (w h : ℝ) (ps : List Particle)
    (n i : ℕ) :
    (poolTraj mseq w h ps (n + 1))[i]? =
      ((poolTraj mseq w h ps n)[i]?).map (fun p =>
        { stepKin (mseq n) w h p with
          connections := connScan (stepKin (mseq n) w h p) (i + 1)
            ((poolTraj mseq w h ps n).drop (i + 1)) }) := by
  show (updateParticles (mseq n) w h (poolTraj mseq w h ps n))[i]? = _
  exact updateParticles_getElem? _ _ _ _ _

/-- Every particle of frame `n + 1` is the kinematic update of the particle
at the same index of frame `n`. -/
theorem poolTraj_pred (mseq : ℕ → ℝ × ℝ) (w h : ℝ) (ps : List Particle) (n i : ℕ)
    (p : Particle) (hp : (poolTraj mseq w h ps (n + 1))[i]? = some p) :
    ∃ p', (poolTraj mseq w h ps n)[i]? = some p' ∧
      p.x = (stepKin (mseq n) w h p').x ∧ p.y = (stepKin (mseq n) w h p').y ∧
      p.vx = (stepKin (mseq n) w h p').vx ∧ p.vy = (stepKin (mseq n) w h p').vy := by
  rw [poolTraj_succ_getElem?] at hp
  cases hq : (poolTraj mseq w h ps n)[i]? with
  | none => rw [hq] at hp; simp at hp
  | some p' =>
    rw [hq] at hp
    simp only [Option.map_some'] at hp
    injection hp with hp
    subst hp
    exact ⟨p', rfl, rfl, rfl, rfl, rfl⟩

/-- Freshly created particles sit inside the viewport. -/
theorem createParticles_pos_bounds (w h : ℕ) (r : ℕ → ℝ)
    (hr : ∀ k, 0 ≤ r k ∧ r k < 1)
    (i : ℕ) (p : Particle) (hp : (createParticles w h r)[i]? = some p) :
    (0 ≤ p.x ∧ p.x ≤ (w : ℝ)) ∧ (0 ≤ p.y ∧ p.y ≤ (h : ℝ)) := by
  rw [createParticles_getElem?] at hp
  split_ifs at hp with hc
  injection hp with hp
  subst hp
  refine ⟨⟨mul_nonneg (hr _).1 (Nat.cast_nonneg w), ?_⟩,
    ⟨mul_nonneg (hr _).1 (Nat.cast_nonneg h), ?_⟩⟩
  · calc r (6 * i) * (w : ℝ) ≤ 1 * (w : ℝ) :=
        mul_le_mul_of_nonneg_right (le_of_lt (hr _).2) (Nat.cast_nonneg w)
    _ = (w : ℝ) := one_mul _
  · calc r (6 * i + 1) * (h : ℝ) ≤ 1 * (h : ℝ) :=
        mul_le_mul_of_nonneg_right (le_of_lt (hr _).2) (Nat.cast_nonneg h)
    _ = (h : ℝ) := one_mul _

/-- C2 (amended): the claimed bound holds in the bounded-velocity regime.
Along any animation trajectory from a freshly created pool, if the pointer
stays inside the viewport and every frame's velocity components stay below
the corresponding canvas dimension minus 0.01, then no particle is outside
`[0, w] × [0, h]` on two consecutive frames (each overshoot is corrected by
the very next position advance, thanks to the bounce), and any overshoot
out of an in-bounds frame is bounded by that frame's velocity component.
As an unconditional statement the claim is false: the undamped pointer
attraction can grow a velocity past the canvas dimension, after which an
overshoot is followed by a second consecutive out-of-bounds frame — see
the concrete trajectory of `cexMouse`/`cexRand`. -/
theorem c2_bounded_overshoot (w h : ℕ) (r : ℕ → ℝ) (mseq : ℕ → ℝ × ℝ)
    (hr : ∀ k, 0 ≤ r k ∧ r k < 1)
    (hm : ∀ n, 0 ≤ (mseq n).1 ∧ (mseq n).1 ≤ (w : ℝ) ∧
      0 ≤ (mseq n).2 ∧ (mseq n).2 ≤ (h : ℝ))
    (hv : ∀ (n i : ℕ) (p : Particle),
      (poolTraj mseq (w : ℝ) (h : ℝ) (createParticles w h r) n)[i]? = some p →
      |p.vx| ≤ (w : ℝ) - 1 / 100 ∧ |p.vy| ≤ (h : ℝ) - 1 / 100) :
    ∀ (n i : ℕ) (p q : Particle),
      (poolTraj mseq (w : ℝ) (h : ℝ) (createParticles w h r) n)[i]? = some p →
      (poolTraj mseq (w : ℝ) (h : ℝ) (createParticles w h r) (n + 1))[i]? = some q →
      ((0 ≤ p.x ∧ p.x ≤ (w : ℝ)) ∨ (0 ≤ q.x ∧ q.x ≤ (w : ℝ))) ∧
      ((0 ≤ p.y ∧ p.y ≤ (h : ℝ)) ∨ (0 ≤ q.y ∧ q.y ≤ (h : ℝ))) ∧
      ((0 ≤ p.x ∧ p.x ≤ (w : ℝ)) → -|p.vx| ≤ q.x ∧ q.x ≤ (w : ℝ) + |p.vx|) ∧
      ((0 ≤ p.y ∧ p.y ≤ (h : ℝ)) → -|p.vy| ≤ q.y ∧ q.y ≤ (h : ℝ) + |p.vy|) := by
  have hqp : ∀ (n i : ℕ) (p q : Particle),
      (poolTraj mseq (w : ℝ) (h : ℝ) (createParticles w h r) n)[i]? = some p →
      (poolTraj mseq (w : ℝ) (h : ℝ) (createParticles w h r) (n + 1))[i]? = some q →
      q.x = p.x + p.vx ∧ q.y = p.y + p.vy ∧
      q.vx = (stepKin (mseq n) (w : ℝ) (h : ℝ) p).vx ∧
      q.vy = (stepKin (mseq n) (w : ℝ) (h : ℝ) p).vy := by
    intro n i p q hp hq
    obtain ⟨p', hp', hex, hey, hevx, hevy⟩ := poolTraj_pred mseq _ _ _ n i q hq
    rw [hp] at hp'
    injection hp' with hp'
    subst hp'
    exact ⟨by rw [hex, stepKin_x], by rw [hey, stepKin_y], hevx, hevy⟩
  have hInvX : ∀ (n i : ℕ) (p : Particle),
      (poolTraj mseq (w : ℝ) (h : ℝ) (createParticles w h r) n)[i]? = some p →
      (0 ≤ p.x ∧ p.x ≤ (w : ℝ)) ∨
        (∀ q, (poolTraj mseq (w : ℝ) (h : ℝ) (createParticles w h r) (n + 1))[i]? = some q →
          0 ≤ q.x ∧ q.x ≤ (w : ℝ)) := by
    intro n
    induction n with
    | zero =>
      intro i p hp
      exact Or.inl (createParticles_pos_bounds w h r hr i p hp).1
    | succ k ih =>
      intro i p hp
      obtain ⟨p', hp', hex, hey, hevx, hevy⟩ := poolTraj_pred mseq _ _ _ k i p hp
      rcases ih i p' hp' with hin | hnext
      · by_cases hpin : 0 ≤ p.x ∧ p.x ≤ (w : ℝ)
        · exact Or.inl hpin
        · refine Or.inr ?_
          intro q hq
          obtain ⟨hqx, _, _, _⟩ := hqp (k + 1) i p q hp hq
          have hout : (stepKin (mseq k) (w : ℝ) (h : ℝ) p').x < 0 ∨
              (stepKin (mseq k) (w : ℝ) (h : ℝ) p').x > (w : ℝ) := by
            rcases not_and_or.mp hpin with h1 | h2
            · exact Or.inl (by rw [← hex]; exact lt_of_not_le h1)
            · exact Or.inr (by rw [← hex]; exact lt_of_not_le h2)
          have hrec := stepKin_x_after_bounce (mseq k) (w : ℝ) (h : ℝ) p'
            (hm k).1 (hm k).2.1 hin.1 hin.2 (hv k i p' hp').1 hout
          rw [hqx, hex, hevx]
          exact hrec
      · exact Or.inl (hnext p hp)
  have hInvY : ∀ (n i : ℕ) (p : Particle),
      (poolTraj mseq (w : ℝ) (h : ℝ) (createParticles w h r) n)[i]? = some p →
      (0 ≤ p.y ∧ p.y ≤ (h : ℝ)) ∨
        (∀ q, (poolTraj mseq (w : ℝ) (h : ℝ) (createParticles w h r) (n + 1))[i]? = some q →
          0 ≤ q.y ∧ q.y ≤ (h : ℝ)) := by
    intro n
    induction n with
    | zero =>
      intro i p hp
      exact Or.inl (createParticles_pos_bounds w h r hr i p hp).2
    | succ k ih =>
      intro i p hp
      obtain ⟨p', hp', hex, hey, hevx, hevy⟩ := poolTraj_pred mseq _ _ _ k i p hp
      rcases ih i p' hp' with hin | hnext
      · by_cases hpin : 0 ≤ p.y ∧ p.y ≤ (h : ℝ)
        · exact Or.inl hpin
        · refine Or.inr ?_
          intro q hq
          obtain ⟨_, hqy, _, _⟩ := hqp (k + 1) i p q hp hq
          have hout : (stepKin (mseq k) (w : ℝ) (h : ℝ) p').y < 0 ∨
              (stepKin (mseq k) (w : ℝ) (h : ℝ) p').y > (h : ℝ) := by
            rcases not_and_or.mp hpin with h1 | h2
            · exact Or.inl (by rw [← hey]; exact lt_of_not_le h1)
            · exact Or.inr (by rw [← hey]; exact lt_of_not_le h2)
          have hrec := stepKin_y_after_bounce (mseq k) (w : ℝ) (h : ℝ) p'
            (hm k).2.2.1 (hm k).2.2.2 hin.1 hin.2 (hv k i p' hp').2 hout
          rw [hqy, hey, hevy]
          exact hrec
      · exact Or.inl (hnext p hp)
  intro n i p q hp hq
  obtain ⟨hqx, hqy, _, _⟩ := hqp n i p q hp hq
  refine ⟨?_, ?_, ?_, ?_⟩
  · rcases hInvX n i p hp with hin | hnext
    · exact Or.inl hin
    · exact Or.inr (hnext q hq)
  · rcases hInvY n i p hp with hin | hnext
    · exact Or.inl hin
    · exact Or.inr (hnext q hq)
  · intro hin
    rw [hqx]
    exact ⟨by linarith [hin.1, neg_abs_le p.vx], by linarith [hin.2, le_abs_self p.vx]⟩
  · intro hin
    rw [hqy]
    exact ⟨by linarith [hin.1, neg_abs_le p.vy], by linarith [hin.2, le_abs_self p.vy]⟩

/-- Witness for C2 at a concrete input: a 1000×15 viewport (one particle at
(500, 7.5) with zero velocity), pointer fixed at the origin, which is more
than 150px away, so the pool is a kinematic fixpoint and every hypothesis
of the theorem holds. -/
theorem c2_bounded_overshoot_witness :
    (∀ k : ℕ, 0 ≤ (fun _ : ℕ => (1/2 : ℝ)) k ∧ (fun _ : ℕ => (1/2 : ℝ)) k < 1) ∧
    ((poolTraj (fun _ => ((0 : ℝ), (0 : ℝ))) ((1000 : ℕ) : ℝ) ((16 : ℕ) : ℝ)
        (createParticles 1000 16 (fun _ : ℕ => (1/2 : ℝ))) 0)[0]? =
      some ⟨500, 8, 0, 0, 5/2, 9/20, []⟩) ∧
    ((poolTraj (fun _ => ((0 : ℝ), (0 : ℝ))) ((1000 : ℕ) : ℝ) ((16 : ℕ) : ℝ)
        (createParticles 1000 16 (fun _ : ℕ => (1/2 : ℝ))) 1)[0]? =
      some ⟨500, 8, 0, 0, 5/2, 9/20, []⟩) ∧
    ((0 ≤ (Particle.mk 500 (8) 0 0 (5/2) (9/20) []).x ∧
        (Particle.mk 500 (8) 0 0 (5/2) (9/20) []).x ≤ ((1000 : ℕ) : ℝ)) ∨
      (0 ≤ (Particle.mk 500 (8) 0 0 (5/2) (9/20) []).x ∧
        (Particle.mk 500 (8) 0 0 (5/2) (9/20) []).x ≤ ((1000 : ℕ) : ℝ))) ∧
    ((0 ≤ (Particle.mk 500 (8) 0 0 (5/2) (9/20) []).x ∧
        (Particle.mk 500 (8) 0 0 (5/2) (9/20) []).x ≤ ((1000 : ℕ) : ℝ)) →
      -|(Particle.mk 500 (8) 0 0 (5/2) (9/20) []).vx| ≤
          (Particle.mk 500 (8) 0 0 (5/2) (9/20) []).x ∧
        (Particle.mk 500 (8) 0 0 (5/2) (9/20) []).x ≤
          ((1000 : ℕ) : ℝ) + |(Particle.mk 500 (8) 0 0 (5/2) (9/20) []).vx|) := by
  have hpool : ∀ n, poolTraj (fun _ => ((0 : ℝ), (0 : ℝ))) ((1000 : ℕ) : ℝ) ((16 : ℕ) : ℝ)
      (createParticles 1000 16 (fun _ : ℕ => (1/2 : ℝ))) n =
      [⟨500, 8, 0, 0, 5/2, 9/20, []⟩] := by
    intro n
    induction n with
    | zero =>
      show createParticles 1000 16 (fun _ : ℕ => (1/2 : ℝ)) = _
      norm_num [createParticles, particleCount, mkParticle, List.range_succ,
        Particle.mk.injEq]
    | succ k ih =>
      show updateParticles _ _ _ (poolTraj _ _ _ _ k) = _
      rw [ih]
      norm_num [updateParticles, updateFrom, stepKin, connScan, Real.sqrt_lt',
        Particle.mk.injEq]
  have hp0 : (poolTraj (fun _ => ((0 : ℝ), (0 : ℝ))) ((1000 : ℕ) : ℝ) ((16 : ℕ) : ℝ)
      (createParticles 1000 16 (fun _ : ℕ => (1/2 : ℝ))) 0)[0]? =
      some ⟨500, 8, 0, 0, 5/2, 9/20, []⟩ := by
    rw [hpool 0]; rfl
  have hp1 : (poolTraj (fun _ => ((0 : ℝ), (0 : ℝ))) ((1000 : ℕ) : ℝ) ((16 : ℕ) : ℝ)
      (createParticles 1000 16 (fun _ : ℕ => (1/2 : ℝ))) 1)[0]? =
      some ⟨500, 8, 0, 0, 5/2, 9/20, []⟩ := by
    rw [hpool 1]; rfl
  have hrA : ∀ k : ℕ, 0 ≤ (fun _ : ℕ => (1/2 : ℝ)) k ∧ (fun _ : ℕ => (1/2 : ℝ)) k < 1 := by
    intro k; norm_num
  have hmA : ∀ n : ℕ, 0 ≤ ((fun _ : ℕ => ((0 : ℝ), (0 : ℝ))) n).1 ∧
      ((fun _ : ℕ => ((0 : ℝ), (0 : ℝ))) n).1 ≤ ((1000 : ℕ) : ℝ) ∧
      0 ≤ ((fun _ : ℕ => ((0 : ℝ), (0 : ℝ))) n).2 ∧
      ((fun _ : ℕ => ((0 : ℝ), (0 : ℝ))) n).2 ≤ ((16 : ℕ) : ℝ) := by
    intro n; norm_num
  have hvA : ∀ (n i : ℕ) (p : Particle),
      (poolTraj (fun _ => ((0 : ℝ), (0 : ℝ))) ((1000 : ℕ) : ℝ) ((16 : ℕ) : ℝ)
        (createParticles 1000 16 (fun _ : ℕ => (1/2 : ℝ))) n)[i]? = some p →
      |p.vx| ≤ ((1000 : ℕ) : ℝ) - 1 / 100 ∧ |p.vy| ≤ ((16 : ℕ) : ℝ) - 1 / 100 := by
    intro n i p hp
    rw [hpool n] at hp
    rcases i with _ | i
    · injection hp with hp
      rw [← hp]
      norm_num
    · simp at hp
  have hmain := c2_bounded_overshoot 1000 16 (fun _ : ℕ => (1/2 : ℝ))
    (fun _ => ((0 : ℝ), (0 : ℝ))) hrA hmA hvA 0 0
    ⟨500, 8, 0, 0, 5/2, 9/20, []⟩ ⟨500, 8, 0, 0, 5/2, 9/20, []⟩ hp0 hp1
  exact ⟨hrA, hp0, hp1, hmain.1, hmain.2.2.1⟩

/-- Evaluation of one frame of a single-particle pool whose motion is purely
horizontal: the pointer sits on the particle's row (`m.2 = y`, so `dy = 0`
and the distance is `|dx| = d`), the particle has zero vertical velocity,
and the attraction (`d < 150`) adds `(dx/d) * ((150-d)/150) * 0.01` to the
post-bounce velocity. -/
theorem single_horiz_frame (m : ℝ × ℝ) (w h : ℝ) (x y v sz op x1 d v1 v2 : ℝ)
    (hx1 : x1 = x + v)
    (hmy : m.2 = y)
    (hv1 : v1 = if x1 < 0 ∨ x1 > w then -v else v)
    (hd0 : 0 < d) (hd150 : d < 150)
    (hsq : (m.1 - x1) * (m.1 - x1) = d * d)
    (hv2 : v2 = v1 + (m.1 - x1) / d * ((150 - d) / 150) * 0.01) :
    updateParticles m w h [⟨x, y, v, 0, sz, op, []⟩] =
      [⟨x1, y, v2, 0, sz, op, []⟩] := by
  have harg : (m.1 - (x + v)) * (m.1 - (x + v)) +
      (m.2 - (y + 0)) * (m.2 - (y + 0)) = d * d := by
    rw [hmy, ← hx1]
    rw [show y - (y + 0) = 0 from by ring]
    simpa using hsq
  have hdist : Real.sqrt ((m.1 - (x + v)) * (m.1 - (x + v)) +
      (m.2 - (y + 0)) * (m.2 - (y + 0))) = d := by
    rw [harg]
    exact Real.sqrt_mul_self hd0.le
  have hmy2 : m.2 - (y + 0) = 0 := by rw [hmy]; ring
  have hstep : stepKin m w h ⟨x, y, v, 0, sz, op, []⟩ = ⟨x1, y, v2, 0, sz, op, []⟩ := by
    simp only [stepKin, hdist]
    rw [if_pos hd150, if_pos hd150]
    simp only [Particle.mk.injEq]
    refine ⟨hx1.symm, by ring, ?_, ?_, trivial, trivial, trivial⟩
    · rw [hv2, hv1, hx1]
    · rw [hmy2]
      split_ifs <;> norm_num
  show updateFrom m w h 0 [⟨x, y, v, 0, sz, op, []⟩] = _
  simp only [updateFrom, connScan]
  rw [hstep]

/-- One frame of the counterexample trajectory: advances the concrete pool
equality from frame `n` to frame `m = n + 1`. -/
theorem cex_frame (mseq : ℕ → ℝ × ℝ) (w h : ℝ) (ps : List Particle) (n m : ℕ)
    (x y v sz op x1 d v1 v2 mx : ℝ)
    (hm : m = n + 1)
    (hpool : poolTraj mseq w h ps n = [⟨x, y, v, 0, sz, op, []⟩])
    (hmouse : mseq n = (mx, y))
    (hx1 : x1 = x + v)
    (hv1 : v1 = if x1 < 0 ∨ x1 > w then -v else v)
    (hd0 : 0 < d) (hd150 : d < 150)
    (hsq : (mx - x1) * (mx - x1) = d * d)
    (hv2 : v2 = v1 + (mx - x1) / d * ((150 - d) / 150) * 0.01) :
    poolTraj mseq w h ps m = [⟨x1, y, v2, 0, sz, op, []⟩] := by
  subst hm
  show updateParticles (mseq n) w h (poolTraj mseq w h ps n) = _
  rw [hpool, hmouse]
  exact single_horiz_frame (mx, y) w h x y v sz op x1 d v1 v2 hx1 rfl hv1 hd0 hd150 hsq hv2

/-- The position one frame after a known single-particle pool state is the
known position advanced by the known velocity (the next frame's attraction
affects only the velocity, not this position). -/
theorem poolTraj_next_x (mseq : ℕ → ℝ × ℝ) (w h : ℝ) (ps : List Particle) (n m : ℕ)
    (hm : m = n + 1) (x y v sz op : ℝ)
    (hpool : poolTraj mseq w h ps n = [⟨x, y, v, 0, sz, op, []⟩]) :
    ∃ p2, (poolTraj mseq w h ps m)[0]? = some p2 ∧ p2.x = x + v := by
  subst hm
  have h1 := poolTraj_succ_getElem? mseq w h ps n 0
  rw [hpool] at h1
  simp only [List.getElem?_cons_zero, Option.map_some'] at h1
  exact ⟨_, h1, rfl⟩



/-- A list lookup with default satisfies any property holding for all
entries and the default. -/
theorem getD_of_forall {α : Type} (P : α → Prop) :
    ∀ (l : List α) (n : ℕ) (d : α), (∀ x ∈ l, P x) → P d → P (l.getD n d)
  | [], _, _, _, hd => hd
  | a :: _, 0, _, hl, _ => by simpa using hl a (by simp)
  | _ :: l, n + 1, d, hl, hd => by
    simpa using getD_of_forall P l n d (fun x hx => hl x (by simp [hx])) hd

/-- Frame 0 of the C2 counterexample trajectory: the fresh pool of the
1×15000 viewport is a single particle at (1177/2000, 7500) with velocity
(-1/4, 0). -/
theorem cexPool0 : poolTraj cexMouse ((1 : ℕ) : ℝ) ((15000 : ℕ) : ℝ) (createParticles 1 15000 cexRand) 0 =
    [⟨(1177 / 2000 : ℝ), 7500, (-(1 / 4) : ℝ), 0, 5 / 2, 9 / 20, []⟩] := by
  show createParticles 1 15000 cexRand = _
  norm_num [createParticles, particleCount, mkParticle, cexRand, List.range_succ,
    Particle.mk.injEq]

/-- Frame 1 of the C2 counterexample trajectory. -/
theorem cexPool1 : poolTraj cexMouse ((1 : ℕ) : ℝ) ((15000 : ℕ) : ℝ) (createParticles 1 15000 cexRand) 1 =
    [⟨(677 / 2000 : ℝ), 7500, (-(15599 / 60000) : ℝ), 0, 5 / 2, 9 / 20, []⟩] :=
  cex_frame cexMouse ((1 : ℕ) : ℝ) ((15000 : ℕ) : ℝ)
    (createParticles 1 15000 cexRand) 0 1
    (1177 / 2000 : ℝ) 7500 (-(1 / 4) : ℝ) (5 / 2) (9 / 20) (677 / 2000 : ℝ) (1 / 4 : ℝ) (-(1 / 4) : ℝ) (-(15599 / 60000) : ℝ) (177 / 2000 : ℝ)
    (by norm_num) cexPool0 (by norm_num [cexMouse, cexMx, cexMxNums, List.getD]) (by norm_num) (by norm_num)
    (by norm_num) (by norm_num) (by norm_num) (by norm_num)

/-- Frame 2 of the C2 counterexample trajectory. -/
theorem cexPool2 : poolTraj cexMouse ((1 : ℕ) : ℝ) ((15000 : ℕ) : ℝ) (createParticles 1 15000 cexRand) 2 =
    [⟨(4711 / 60000 : ℝ), 7500, (-(12959 / 48000) : ℝ), 0, 5 / 2, 9 / 20, []⟩] :=
  cex_frame cexMouse ((1 : ℕ) : ℝ) ((15000 : ℕ) : ℝ)
    (createParticles 1 15000 cexRand) 1 2
    (677 / 2000 : ℝ) 7500 (-(15599 / 60000) : ℝ) (5 / 2) (9 / 20) (4711 / 60000 : ℝ) (1 / 16 : ℝ) (-(15599 / 60000) : ℝ) (-(12959 / 48000) : ℝ) (961 / 60000 : ℝ)
    (by norm_num) cexPool1 (by norm_num [cexMouse, cexMx, cexMxNums, List.getD]) (by norm_num) (by norm_num)
    (by norm_num) (by norm_num) (by norm_num) (by norm_num)

/-- Frame 3 of the C2 counterexample trajectory. -/
theorem cexPool3 : poolTraj cexMouse ((1 : ℕ) : ℝ) ((15000 : ℕ) : ℝ) (createParticles 1 15000 cexRand) 3 =
    [⟨(-(15317 / 80000) : ℝ), 7500, (22393 / 80000 : ℝ), 0, 5 / 2, 9 / 20, []⟩] :=
  cex_frame cexMouse ((1 : ℕ) : ℝ) ((15000 : ℕ) : ℝ)
    (createParticles 1 15000 cexRand) 2 3
    (4711 / 60000 : ℝ) 7500 (-(12959 / 48000) : ℝ) (5 / 2) (9 / 20) (-(15317 / 80000) : ℝ) (1 : ℝ) (12959 / 48000 : ℝ) (22393 / 80000 : ℝ) (64683 / 80000 : ℝ)
    (by norm_num) cexPool2 (by norm_num [cexMouse, cexMx, cexMxNums, List.getD]) (by norm_num) (by norm_num)
    (by norm_num) (by norm_num) (by norm_num) (by norm_num)

/-- Frame 4 of the C2 counterexample trajectory. -/
theorem cexPool4 : poolTraj cexMouse ((1 : ℕ) : ℝ) ((15000 : ℕ) : ℝ) (createParticles 1 15000 cexRand) 4 =
    [⟨(1769 / 20000 : ℝ), 7500, (69571 / 240000 : ℝ), 0, 5 / 2, 9 / 20, []⟩] :=
  cex_frame cexMouse ((1 : ℕ) : ℝ) ((15000 : ℕ) : ℝ)
    (createParticles 1 15000 cexRand) 3 4
    (-(15317 / 80000) : ℝ) 7500 (22393 / 80000 : ℝ) (5 / 2) (9 / 20) (1769 / 20000 : ℝ) (1 / 2 : ℝ) (22393 / 80000 : ℝ) (69571 / 240000 : ℝ) (11769 / 20000 : ℝ)
    (by norm_num) cexPool3 (by norm_num [cexMouse, cexMx, cexMxNums, List.getD]) (by norm_num) (by norm_num)
    (by norm_num) (by norm_num) (by norm_num) (by norm_num)

/-- Frame 5 of the C2 counterexample trajectory. -/
theorem cexPool5 : poolTraj cexMouse ((1 : ℕ) : ℝ) ((15000 : ℕ) : ℝ) (createParticles 1 15000 cexRand) 5 =
    [⟨(90799 / 240000 : ℝ), 7500, (71963 / 240000 : ℝ), 0, 5 / 2, 9 / 20, []⟩] :=
  cex_frame cexMouse ((1 : ℕ) : ℝ) ((15000 : ℕ) : ℝ)
    (createParticles 1 15000 cexRand) 4 5
    (1769 / 20000 : ℝ) 7500 (69571 / 240000 : ℝ) (5 / 2) (9 / 20) (90799 / 240000 : ℝ) (1 / 2 : ℝ) (69571 / 240000 : ℝ) (71963 / 240000 : ℝ) (210799 / 240000 : ℝ)
    (by norm_num) cexPool4 (by norm_num [cexMouse, cexMx, cexMxNums, List.getD]) (by norm_num) (by norm_num)
    (by norm_num) (by norm_num) (by norm_num) (by norm_num)

/-- Frame 6 of the C2 counterexample trajectory. -/
theorem cexPool6 : poolTraj cexMouse ((1 : ℕ) : ℝ) ((15000 : ℕ) : ℝ) (createParticles 1 15000 cexRand) 6 =
    [⟨(27127 / 40000 : ℝ), 7500, (74359 / 240000 : ℝ), 0, 5 / 2, 9 / 20, []⟩] :=
  cex_frame cexMouse ((1 : ℕ) : ℝ) ((15000 : ℕ) : ℝ)
    (createParticles 1 15000 cexRand) 5 6
    (90799 / 240000 : ℝ) 7500 (71963 / 240000 : ℝ) (5 / 2) (9 / 20) (27127 / 40000 : ℝ) (1 / 4 : ℝ) (71963 / 240000 : ℝ) (74359 / 240000 : ℝ) (37127 / 40000 : ℝ)
    (by norm_num) cexPool5 (by norm_num [cexMouse, cexMx, cexMxNums, List.getD]) (by norm_num) (by norm_num)
    (by norm_num) (by norm_num) (by norm_num) (by norm_num)

/-- Frame 7 of the C2 counterexample trajectory. -/
theorem cexPool7 : poolTraj cexMouse ((1 : ℕ) : ℝ) ((15000 : ℕ) : ℝ) (createParticles 1 15000 cexRand) 7 =
    [⟨(237121 / 240000 : ℝ), 7500, (23989 / 80000 : ℝ), 0, 5 / 2, 9 / 20, []⟩] :=
  cex_frame cexMouse ((1 : ℕ) : ℝ) ((15000 : ℕ) : ℝ)
    (createParticles 1 15000 cexRand) 6 7
    (27127 / 40000 : ℝ) 7500 (74359 / 240000 : ℝ) (5 / 2) (9 / 20) (237121 / 240000 : ℝ) (1 / 2 : ℝ) (74359 / 240000 : ℝ) (23989 / 80000 : ℝ) (117121 / 240000 : ℝ)
    (by norm_num) cexPool6 (by norm_num [cexMouse, cexMx, cexMxNums, List.getD]) (by norm_num) (by norm_num)
    (by norm_num) (by norm_num) (by norm_num) (by norm_num)

/-- Frame 8 of the C2 counterexample trajectory. -/
theorem cexPool8 : poolTraj cexMouse ((1 : ℕ) : ℝ) ((15000 : ℕ) : ℝ) (createParticles 1 15000 cexRand) 8 =
    [⟨(9659 / 7500 : ℝ), 7500, (-(74351 / 240000) : ℝ), 0, 5 / 2, 9 / 20, []⟩] :=
  cex_frame cexMouse ((1 : ℕ) : ℝ) ((15000 : ℕ) : ℝ)
    (createParticles 1 15000 cexRand) 7 8
    (237121 / 240000 : ℝ) 7500 (23989 / 80000 : ℝ) (5 / 2) (9 / 20) (9659 / 7500 : ℝ) (1 : ℝ) (-(23989 / 80000) : ℝ) (-(74351 / 240000) : ℝ) (2159 / 7500 : ℝ)
    (by norm_num) cexPool7 (by norm_num [cexMouse, cexMx, cexMxNums, List.getD]) (by norm_num) (by norm_num)
    (by norm_num) (by norm_num) (by norm_num) (by norm_num)

/-- Frame 9 of the C2 counterexample trajectory. -/
theorem cexPool9 : poolTraj cexMouse ((1 : ℕ) : ℝ) ((15000 : ℕ) : ℝ) (createParticles 1 15000 cexRand) 9 =
    [⟨(234737 / 240000 : ℝ), 7500, (-(25581 / 80000) : ℝ), 0, 5 / 2, 9 / 20, []⟩] :=
  cex_frame cexMouse ((1 : ℕ) : ℝ) ((15000 : ℕ) : ℝ)
    (createParticles 1 15000 cexRand) 8 9
    (9659 / 7500 : ℝ) 7500 (-(74351 / 240000) : ℝ) (5 / 2) (9 / 20) (234737 / 240000 : ℝ) (1 / 2 : ℝ) (-(74351 / 240000) : ℝ) (-(25581 / 80000) : ℝ) (114737 / 240000 : ℝ)
    (by norm_num) cexPool8 (by norm_num [cexMouse, cexMx, cexMxNums, List.getD]) (by norm_num) (by norm_num)
    (by norm_num) (by norm_num) (by norm_num) (by norm_num)

/-- Frame 10 of the C2 counterexample trajectory. -/
theorem cexPool10 : poolTraj cexMouse ((1 : ℕ) : ℝ) ((15000 : ℕ) : ℝ) (createParticles 1 15000 cexRand) 10 =
    [⟨(78997 / 120000 : ℝ), 7500, (-(15827 / 48000) : ℝ), 0, 5 / 2, 9 / 20, []⟩] :=
  cex_frame cexMouse ((1 : ℕ) : ℝ) ((15000 : ℕ) : ℝ)
    (createParticles 1 15000 cexRand) 9 10
    (234737 / 240000 : ℝ) 7500 (-(25581 / 80000) : ℝ) (5 / 2) (9 / 20) (78997 / 120000 : ℝ) (1 / 2 : ℝ) (-(25581 / 80000) : ℝ) (-(15827 / 48000) : ℝ) (18997 / 120000 : ℝ)
    (by norm_num) cexPool9 (by norm_num [cexMouse, cexMx, cexMxNums, List.getD]) (by norm_num) (by norm_num)
    (by norm_num) (by norm_num) (by norm_num) (by norm_num)

/-- Frame 11 of the C2 counterexample trajectory. -/
theorem cexPool11 : poolTraj cexMouse ((1 : ℕ) : ℝ) ((15000 : ℕ) : ℝ) (createParticles 1 15000 cexRand) 11 =
    [⟨(78859 / 240000 : ℝ), 7500, (-(27177 / 80000) : ℝ), 0, 5 / 2, 9 / 20, []⟩] :=
  cex_frame cexMouse ((1 : ℕ) : ℝ) ((15000 : ℕ) : ℝ)
    (createParticles 1 15000 cexRand) 10 11
    (78997 / 120000 : ℝ) 7500 (-(15827 / 48000) : ℝ) (5 / 2) (9 / 20) (78859 / 240000 : ℝ) (1 / 4 : ℝ) (-(15827 / 48000) : ℝ) (-(27177 / 80000) : ℝ) (18859 / 240000 : ℝ)
    (by norm_num) cexPool10 (by norm_num [cexMouse, cexMx, cexMxNums, List.getD]) (by norm_num) (by norm_num)
    (by norm_num) (by norm_num) (by norm_num) (by norm_num)

/-- Frame 12 of the C2 counterexample trajectory. -/
theorem cexPool12 : poolTraj cexMouse ((1 : ℕ) : ℝ) ((15000 : ℕ) : ℝ) (createParticles 1 15000 cexRand) 12 =
    [⟨(-(167 / 15000) : ℝ), 7500, (16783 / 48000 : ℝ), 0, 5 / 2, 9 / 20, []⟩] :=
  cex_frame cexMouse ((1 : ℕ) : ℝ) ((15000 : ℕ) : ℝ)
    (createParticles 1 15000 cexRand) 11 12
    (78859 / 240000 : ℝ) 7500 (-(27177 / 80000) : ℝ) (5 / 2) (9 / 20) (-(167 / 15000) : ℝ) (1 : ℝ) (27177 / 80000 : ℝ) (16783 / 48000 : ℝ) (14833 / 15000 : ℝ)
    (by norm_num) cexPool11 (by norm_num [cexMouse, cexMx, cexMxNums, List.getD]) (by norm_num) (by norm_num)
    (by norm_num) (by norm_num) (by norm_num) (by norm_num)

/-- Frame 13 of the C2 counterexample trajectory. -/
theorem cexPool13 : poolTraj cexMouse ((1 : ℕ) : ℝ) ((15000 : ℕ) : ℝ) (createParticles 1 15000 cexRand) 13 =
    [⟨(27081 / 80000 : ℝ), 7500, (28769 / 80000 : ℝ), 0, 5 / 2, 9 / 20, []⟩] :=
  cex_frame cexMouse ((1 : ℕ) : ℝ) ((15000 : ℕ) : ℝ)
    (createParticles 1 15000 cexRand) 12 13
    (-(167 / 15000) : ℝ) 7500 (16783 / 48000 : ℝ) (5 / 2) (9 / 20) (27081 / 80000 : ℝ) (1 / 2 : ℝ) (16783 / 48000 : ℝ) (28769 / 80000 : ℝ) (67081 / 80000 : ℝ)
    (by norm_num) cexPool12 (by norm_num [cexMouse, cexMx, cexMxNums, List.getD]) (by norm_num) (by norm_num)
    (by norm_num) (by norm_num) (by norm_num) (by norm_num)

/-- Frame 14 of the C2 counterexample trajectory. -/
theorem cexPool14 : poolTraj cexMouse ((1 : ℕ) : ℝ) ((15000 : ℕ) : ℝ) (createParticles 1 15000 cexRand) 14 =
    [⟨(1117 / 1600 : ℝ), 7500, (88703 / 240000 : ℝ), 0, 5 / 2, 9 / 20, []⟩] :=
  cex_frame cexMouse ((1 : ℕ) : ℝ) ((15000 : ℕ) : ℝ)
    (createParticles 1 15000 cexRand) 13 14
    (27081 / 80000 : ℝ) 7500 (28769 / 80000 : ℝ) (5 / 2) (9 / 20) (1117 / 1600 : ℝ) (1 / 4 : ℝ) (28769 / 80000 : ℝ) (88703 / 240000 : ℝ) (1517 / 1600 : ℝ)
    (by norm_num) cexPool13 (by norm_num [cexMouse, cexMx, cexMxNums, List.getD]) (by norm_num) (by norm_num)
    (by norm_num) (by norm_num) (by norm_num) (by norm_num)

/-- Frame 15 of the C2 counterexample trajectory. -/
theorem cexPool15 : poolTraj cexMouse ((1 : ℕ) : ℝ) ((15000 : ℕ) : ℝ) (createParticles 1 15000 cexRand) 15 =
    [⟨(256253 / 240000 : ℝ), 7500, (-(91087 / 240000) : ℝ), 0, 5 / 2, 9 / 20, []⟩] :=
  cex_frame cexMouse ((1 : ℕ) : ℝ) ((15000 : ℕ) : ℝ)
    (createParticles 1 15000 cexRand) 14 15
    (1117 / 1600 : ℝ) 7500 (88703 / 240000 : ℝ) (5 / 2) (9 / 20) (256253 / 240000 : ℝ) (1 : ℝ) (-(88703 / 240000) : ℝ) (-(91087 / 240000) : ℝ) (16253 / 240000 : ℝ)
    (by norm_num) cexPool14 (by norm_num [cexMouse, cexMx, cexMxNums, List.getD]) (by norm_num) (by norm_num)
    (by norm_num) (by norm_num) (by norm_num) (by norm_num)

/-- Frame 16 of the C2 counterexample trajectory. -/
theorem cexPool16 : poolTraj cexMouse ((1 : ℕ) : ℝ) ((15000 : ℕ) : ℝ) (createParticles 1 15000 cexRand) 16 =
    [⟨(82583 / 120000 : ℝ), 7500, (-(93479 / 240000) : ℝ), 0, 5 / 2, 9 / 20, []⟩] :=
  cex_frame cexMouse ((1 : ℕ) : ℝ) ((15000 : ℕ) : ℝ)
    (createParticles 1 15000 cexRand) 15 16
    (256253 / 240000 : ℝ) 7500 (-(91087 / 240000) : ℝ) (5 / 2) (9 / 20) (82583 / 120000 : ℝ) (1 / 2 : ℝ) (-(91087 / 240000) : ℝ) (-(93479 / 240000) : ℝ) (22583 / 120000 : ℝ)
    (by norm_num) cexPool15 (by norm_num [cexMouse, cexMx, cexMxNums, List.getD]) (by norm_num) (by norm_num)
    (by norm_num) (by norm_num) (by norm_num) (by norm_num)

/-- Frame 17 of the C2 counterexample trajectory. -/
theorem cexPool17 : poolTraj cexMouse ((1 : ℕ) : ℝ) ((15000 : ℕ) : ℝ) (createParticles 1 15000 cexRand) 17 =
    [⟨(71687 / 240000 : ℝ), 7500, (-(767 / 1920) : ℝ), 0, 5 / 2, 9 / 20, []⟩] :=
  cex_frame cexMouse ((1 : ℕ) : ℝ) ((15000 : ℕ) : ℝ)
    (createParticles 1 15000 cexRand) 16 17
    (82583 / 120000 : ℝ) 7500 (-(93479 / 240000) : ℝ) (5 / 2) (9 / 20) (71687 / 240000 : ℝ) (1 / 4 : ℝ) (-(93479 / 240000) : ℝ) (-(767 / 1920) : ℝ) (11687 / 240000 : ℝ)
    (by norm_num) cexPool16 (by norm_num [cexMouse, cexMx, cexMxNums, List.getD]) (by norm_num) (by norm_num)
    (by norm_num) (by norm_num) (by norm_num) (by norm_num)

/-- Frame 18 of the C2 counterexample trajectory. -/
theorem cexPool18 : poolTraj cexMouse ((1 : ℕ) : ℝ) ((15000 : ℕ) : ℝ) (createParticles 1 15000 cexRand) 18 =
    [⟨(-(6047 / 60000) : ℝ), 7500, (32753 / 80000 : ℝ), 0, 5 / 2, 9 / 20, []⟩] :=
  cex_frame cexMouse ((1 : ℕ) : ℝ) ((15000 : ℕ) : ℝ)
    (createParticles 1 15000 cexRand) 17 18
    (71687 / 240000 : ℝ) 7500 (-(767 / 1920) : ℝ) (5 / 2) (9 / 20) (-(6047 / 60000) : ℝ) (1 : ℝ) (767 / 1920 : ℝ) (32753 / 80000 : ℝ) (53953 / 60000 : ℝ)
    (by norm_num) cexPool17 (by norm_num [cexMouse, cexMx, cexMxNums, List.getD]) (by norm_num) (by norm_num)
    (by norm_num) (by norm_num) (by norm_num) (by norm_num)

/-- Frame 19 of the C2 counterexample trajectory. -/
theorem cexPool19 : poolTraj cexMouse ((1 : ℕ) : ℝ) ((15000 : ℕ) : ℝ) (createParticles 1 15000 cexRand) 19 =
    [⟨(74071 / 240000 : ℝ), 7500, (100651 / 240000 : ℝ), 0, 5 / 2, 9 / 20, []⟩] :=
  cex_frame cexMouse ((1 : ℕ) : ℝ) ((15000 : ℕ) : ℝ)
    (createParticles 1 15000 cexRand) 18 19
    (-(6047 / 60000) : ℝ) 7500 (32753 / 80000 : ℝ) (5 / 2) (9 / 20) (74071 / 240000 : ℝ) (1 / 2 : ℝ) (32753 / 80000 : ℝ) (100651 / 240000 : ℝ) (194071 / 240000 : ℝ)
    (by norm_num) cexPool18 (by norm_num [cexMouse, cexMx, cexMxNums, List.getD]) (by norm_num) (by norm_num)
    (by norm_num) (by norm_num) (by norm_num) (by norm_num)

/-- Frame 20 of the C2 counterexample trajectory. -/
theorem cexPool20 : poolTraj cexMouse ((1 : ℕ) : ℝ) ((15000 : ℕ) : ℝ) (createParticles 1 15000 cexRand) 20 =
    [⟨(87361 / 120000 : ℝ), 7500, (34349 / 80000 : ℝ), 0, 5 / 2, 9 / 20, []⟩] :=
  cex_frame cexMouse ((1 : ℕ) : ℝ) ((15000 : ℕ) : ℝ)
    (createParticles 1 15000 cexRand) 19 20
    (74071 / 240000 : ℝ) 7500 (100651 / 240000 : ℝ) (5 / 2) (9 / 20) (87361 / 120000 : ℝ) (1 / 4 : ℝ) (100651 / 240000 : ℝ) (34349 / 80000 : ℝ) (117361 / 120000 : ℝ)
    (by norm_num) cexPool19 (by norm_num [cexMouse, cexMx, cexMxNums, List.getD]) (by norm_num) (by norm_num)
    (by norm_num) (by norm_num) (by norm_num) (by norm_num)

/-- Frame 21 of the C2 counterexample trajectory. -/
theorem cexPool21 : poolTraj cexMouse ((1 : ℕ) : ℝ) ((15000 : ℕ) : ℝ) (createParticles 1 15000 cexRand) 21 =
    [⟨(277769 / 240000 : ℝ), 7500, (-(105431 / 240000) : ℝ), 0, 5 / 2, 9 / 20, []⟩] :=
  cex_frame cexMouse ((1 : ℕ) : ℝ) ((15000 : ℕ) : ℝ)
    (createParticles 1 15000 cexRand) 20 21
    (87361 / 120000 : ℝ) 7500 (34349 / 80000 : ℝ) (5 / 2) (9 / 20) (277769 / 240000 : ℝ) (1 : ℝ) (-(34349 / 80000) : ℝ) (-(105431 / 240000) : ℝ) (37769 / 240000 : ℝ)
    (by norm_num) cexPool20 (by norm_num [cexMouse, cexMx, cexMxNums, List.getD]) (by norm_num) (by norm_num)
    (by norm_num) (by norm_num) (by norm_num) (by norm_num)

/-- Frame 22 of the C2 counterexample trajectory. -/
theorem cexPool22 : poolTraj cexMouse ((1 : ℕ) : ℝ) ((15000 : ℕ) : ℝ) (createParticles 1 15000 cexRand) 22 =
    [⟨(28723 / 40000 : ℝ), 7500, (-(35941 / 80000) : ℝ), 0, 5 / 2, 9 / 20, []⟩] :=
  cex_frame cexMouse ((1 : ℕ) : ℝ) ((15000 : ℕ) : ℝ)
    (createParticles 1 15000 cexRand) 21 22
    (277769 / 240000 : ℝ) 7500 (-(105431 / 240000) : ℝ) (5 / 2) (9 / 20) (28723 / 40000 : ℝ) (1 / 2 : ℝ) (-(105431 / 240000) : ℝ) (-(35941 / 80000) : ℝ) (8723 / 40000 : ℝ)
    (by norm_num) cexPool21 (by norm_num [cexMouse, cexMx, cexMxNums, List.getD]) (by norm_num) (by norm_num)
    (by norm_num) (by norm_num) (by norm_num) (by norm_num)

/-- Frame 23 of the C2 counterexample trajectory. -/
theorem cexPool23 : poolTraj cexMouse ((1 : ℕ) : ℝ) ((15000 : ℕ) : ℝ) (createParticles 1 15000 cexRand) 23 =
    [⟨(4301 / 16000 : ℝ), 7500, (-(110219 / 240000) : ℝ), 0, 5 / 2, 9 / 20, []⟩] :=
  cex_frame cexMouse ((1 : ℕ) : ℝ) ((15000 : ℕ) : ℝ)
    (createParticles 1 15000 cexRand) 22 23
    (28723 / 40000 : ℝ) 7500 (-(35941 / 80000) : ℝ) (5 / 2) (9 / 20) (4301 / 16000 : ℝ) (1 / 4 : ℝ) (-(35941 / 80000) : ℝ) (-(110219 / 240000) : ℝ) (301 / 16000 : ℝ)
    (by norm_num) cexPool22 (by norm_num [cexMouse, cexMx, cexMxNums, List.getD]) (by norm_num) (by norm_num)
    (by norm_num) (by norm_num) (by norm_num) (by norm_num)

/-- Frame 24 of the C2 counterexample trajectory. -/
theorem cexPool24 : poolTraj cexMouse ((1 : ℕ) : ℝ) ((15000 : ℕ) : ℝ) (createParticles 1 15000 cexRand) 24 =
    [⟨(-(5713 / 30000) : ℝ), 7500, (112603 / 240000 : ℝ), 0, 5 / 2, 9 / 20, []⟩] :=
  cex_frame cexMouse ((1 : ℕ) : ℝ) ((15000 : ℕ) : ℝ)
    (createParticles 1 15000 cexRand) 23 24
    (4301 / 16000 : ℝ) 7500 (-(110219 / 240000) : ℝ) (5 / 2) (9 / 20) (-(5713 / 30000) : ℝ) (1 : ℝ) (110219 / 240000 : ℝ) (112603 / 240000 : ℝ) (24287 / 30000 : ℝ)
    (by norm_num) cexPool23 (by norm_num [cexMouse, cexMx, cexMxNums, List.getD]) (by norm_num) (by norm_num)
    (by norm_num) (by norm_num) (by norm_num) (by norm_num)

/-- Frame 25 of the C2 counterexample trajectory. -/
theorem cexPool25 : poolTraj cexMouse ((1 : ℕ) : ℝ) ((15000 : ℕ) : ℝ) (createParticles 1 15000 cexRand) 25 =
    [⟨(66899 / 240000 : ℝ), 7500, (22999 / 48000 : ℝ), 0, 5 / 2, 9 / 20, []⟩] :=
  cex_frame cexMouse ((1 : ℕ) : ℝ) ((15000 : ℕ) : ℝ)
    (createParticles 1 15000 cexRand) 24 25
    (-(5713 / 30000) : ℝ) 7500 (112603 / 240000 : ℝ) (5 / 2) (9 / 20) (66899 / 240000 : ℝ) (1 / 2 : ℝ) (112603 / 240000 : ℝ) (22999 / 48000 : ℝ) (186899 / 240000 : ℝ)
    (by norm_num) cexPool24 (by norm_num [cexMouse, cexMx, cexMxNums, List.getD]) (by norm_num) (by norm_num)
    (by norm_num) (by norm_num) (by norm_num) (by norm_num)

/-- Frame 26 of the C2 counterexample trajectory. -/
theorem cexPool26 : poolTraj cexMouse ((1 : ℕ) : ℝ) ((15000 : ℕ) : ℝ) (createParticles 1 15000 cexRand) 26 =
    [⟨(90947 / 120000 : ℝ), 7500, (39131 / 80000 : ℝ), 0, 5 / 2, 9 / 20, []⟩] :=
  cex_frame cexMouse ((1 : ℕ) : ℝ) ((15000 : ℕ) : ℝ)
    (createParticles 1 15000 cexRand) 25 26
    (66899 / 240000 : ℝ) 7500 (22999 / 48000 : ℝ) (5 / 2) (9 / 20) (90947 / 120000 : ℝ) (1 / 8 : ℝ) (22999 / 48000 : ℝ) (39131 / 80000 : ℝ) (105947 / 120000 : ℝ)
    (by norm_num) cexPool25 (by norm_num [cexMouse, cexMx, cexMxNums, List.getD]) (by norm_num) (by norm_num)
    (by norm_num) (by norm_num) (by norm_num) (by norm_num)

/-- Frame 27 of the C2 counterexample trajectory. -/
theorem cexPool27 : poolTraj cexMouse ((1 : ℕ) : ℝ) ((15000 : ℕ) : ℝ) (createParticles 1 15000 cexRand) 27 =
    [⟨(299287 / 240000 : ℝ), 7500, (-(119777 / 240000) : ℝ), 0, 5 / 2, 9 / 20, []⟩] :=
  cex_frame cexMouse ((1 : ℕ) : ℝ) ((15000 : ℕ) : ℝ)
    (createParticles 1 15000 cexRand) 26 27
    (90947 / 120000 : ℝ) 7500 (39131 / 80000 : ℝ) (5 / 2) (9 / 20) (299287 / 240000 : ℝ) (1 : ℝ) (-(39131 / 80000) : ℝ) (-(119777 / 240000) : ℝ) (59287 / 240000 : ℝ)
    (by norm_num) cexPool26 (by norm_num [cexMouse, cexMx, cexMxNums, List.getD]) (by norm_num) (by norm_num)
    (by norm_num) (by norm_num) (by norm_num) (by norm_num)

/-- Frame 28 of the C2 counterexample trajectory. -/
theorem cexPool28 : poolTraj cexMouse ((1 : ℕ) : ℝ) ((15000 : ℕ) : ℝ) (createParticles 1 15000 cexRand) 28 =
    [⟨(17951 / 24000 : ℝ), 7500, (-(40723 / 80000) : ℝ), 0, 5 / 2, 9 / 20, []⟩] :=
  cex_frame cexMouse ((1 : ℕ) : ℝ) ((15000 : ℕ) : ℝ)
    (createParticles 1 15000 cexRand) 27 28
    (299287 / 240000 : ℝ) 7500 (-(119777 / 240000) : ℝ) (5 / 2) (9 / 20) (17951 / 24000 : ℝ) (1 / 2 : ℝ) (-(119777 / 240000) : ℝ) (-(40723 / 80000) : ℝ) (5951 / 24000 : ℝ)
    (by norm_num) cexPool27 (by norm_num [cexMouse, cexMx, cexMxNums, List.getD]) (by norm_num) (by norm_num)
    (by norm_num) (by norm_num) (by norm_num) (by norm_num)

/-- Frame 29 of the C2 counterexample trajectory. -/
theorem cexPool29 : poolTraj cexMouse ((1 : ℕ) : ℝ) ((15000 : ℕ) : ℝ) (createParticles 1 15000 cexRand) 29 =
    [⟨(57341 / 240000 : ℝ), 7500, (-(124567 / 240000) : ℝ), 0, 5 / 2, 9 / 20, []⟩] :=
  cex_frame cexMouse ((1 : ℕ) : ℝ) ((15000 : ℕ) : ℝ)
    (createParticles 1 15000 cexRand) 28 29
    (17951 / 24000 : ℝ) 7500 (-(40723 / 80000) : ℝ) (5 / 2) (9 / 20) (57341 / 240000 : ℝ) (1 / 8 : ℝ) (-(40723 / 80000) : ℝ) (-(124567 / 240000) : ℝ) (27341 / 240000 : ℝ)
    (by norm_num) cexPool28 (by norm_num [cexMouse, cexMx, cexMxNums, List.getD]) (by norm_num) (by norm_num)
    (by norm_num) (by norm_num) (by norm_num) (by norm_num)

/-- Frame 30 of the C2 counterexample trajectory. -/
theorem cexPool30 : poolTraj cexMouse ((1 : ℕ) : ℝ) ((15000 : ℕ) : ℝ) (createParticles 1 15000 cexRand) 30 =
    [⟨(-(33613 / 120000) : ℝ), 7500, (42317 / 80000 : ℝ), 0, 5 / 2, 9 / 20, []⟩] :=
  cex_frame cexMouse ((1 : ℕ) : ℝ) ((15000 : ℕ) : ℝ)
    (createParticles 1 15000 cexRand) 29 30
    (57341 / 240000 : ℝ) 7500 (-(124567 / 240000) : ℝ) (5 / 2) (9 / 20) (-(33613 / 120000) : ℝ) (1 : ℝ) (124567 / 240000 : ℝ) (42317 / 80000 : ℝ) (86387 / 120000 : ℝ)
    (by norm_num) cexPool29 (by norm_num [cexMouse, cexMx, cexMxNums, List.getD]) (by norm_num) (by norm_num)
    (by norm_num) (by norm_num) (by norm_num) (by norm_num)

/-- Frame 31 of the C2 counterexample trajectory. -/
theorem cexPool31 : poolTraj cexMouse ((1 : ℕ) : ℝ) ((15000 : ℕ) : ℝ) (createParticles 1 15000 cexRand) 31 =
    [⟨(2389 / 9600 : ℝ), 7500, (129343 / 240000 : ℝ), 0, 5 / 2, 9 / 20, []⟩] :=
  cex_frame cexMouse ((1 : ℕ) : ℝ) ((15000 : ℕ) : ℝ)
    (createParticles 1 15000 cexRand) 30 31
    (-(33613 / 120000) : ℝ) 7500 (42317 / 80000 : ℝ) (5 / 2) (9 / 20) (2389 / 9600 : ℝ) (1 / 2 : ℝ) (42317 / 80000 : ℝ) (129343 / 240000 : ℝ) (7189 / 9600 : ℝ)
    (by norm_num) cexPool30 (by norm_num [cexMouse, cexMx, cexMxNums, List.getD]) (by norm_num) (by norm_num)
    (by norm_num) (by norm_num) (by norm_num) (by norm_num)

/-- Frame 32 of the C2 counterexample trajectory. -/
theorem cexPool32 : poolTraj cexMouse ((1 : ℕ) : ℝ) ((15000 : ℕ) : ℝ) (createParticles 1 15000 cexRand) 32 =
    [⟨(47267 / 60000 : ℝ), 7500, (131741 / 240000 : ℝ), 0, 5 / 2, 9 / 20, []⟩] :=
  cex_frame cexMouse ((1 : ℕ) : ℝ) ((15000 : ℕ) : ℝ)
    (createParticles 1 15000 cexRand) 31 32
    (2389 / 9600 : ℝ) 7500 (129343 / 240000 : ℝ) (5 / 2) (9 / 20) (47267 / 60000 : ℝ) (1 / 8 : ℝ) (129343 / 240000 : ℝ) (131741 / 240000 : ℝ) (54767 / 60000 : ℝ)
    (by norm_num) cexPool31 (by norm_num [cexMouse, cexMx, cexMxNums, List.getD]) (by norm_num) (by norm_num)
    (by norm_num) (by norm_num) (by norm_num) (by norm_num)

/-- Frame 33 of the C2 counterexample trajectory. -/
theorem cexPool33 : poolTraj cexMouse ((1 : ℕ) : ℝ) ((15000 : ℕ) : ℝ) (createParticles 1 15000 cexRand) 33 =
    [⟨(320809 / 240000 : ℝ), 7500, (-(1073 / 1920) : ℝ), 0, 5 / 2, 9 / 20, []⟩] :=
  cex_frame cexMouse ((1 : ℕ) : ℝ) ((15000 : ℕ) : ℝ)
    (createParticles 1 15000 cexRand) 32 33
    (47267 / 60000 : ℝ) 7500 (131741 / 240000 : ℝ) (5 / 2) (9 / 20) (320809 / 240000 : ℝ) (1 : ℝ) (-(131741 / 240000) : ℝ) (-(1073 / 1920) : ℝ) (80809 / 240000 : ℝ)
    (by norm_num) cexPool32 (by norm_num [cexMouse, cexMx, cexMxNums, List.getD]) (by norm_num) (by norm_num)
    (by norm_num) (by norm_num) (by norm_num) (by norm_num)

/-- Frame 34 of the C2 counterexample trajectory. -/
theorem cexPool34 : poolTraj cexMouse ((1 : ℕ) : ℝ) ((15000 : ℕ) : ℝ) (createParticles 1 15000 cexRand) 34 =
    [⟨(15557 / 20000 : ℝ), 7500, (-(136517 / 240000) : ℝ), 0, 5 / 2, 9 / 20, []⟩] :=
  cex_frame cexMouse ((1 : ℕ) : ℝ) ((15000 : ℕ) : ℝ)
    (createParticles 1 15000 cexRand) 33 34
    (320809 / 240000 : ℝ) 7500 (-(1073 / 1920) : ℝ) (5 / 2) (9 / 20) (15557 / 20000 : ℝ) (1 / 2 : ℝ) (-(1073 / 1920) : ℝ) (-(136517 / 240000) : ℝ) (5557 / 20000 : ℝ)
    (by norm_num) cexPool33 (by norm_num [cexMouse, cexMx, cexMxNums, List.getD]) (by norm_num) (by norm_num)
    (by norm_num) (by norm_num) (by norm_num) (by norm_num)

/-- Frame 35 of the C2 counterexample trajectory. -/
theorem cexPool35 : poolTraj cexMouse ((1 : ℕ) : ℝ) ((15000 : ℕ) : ℝ) (createParticles 1 15000 cexRand) 35 =
    [⟨(50167 / 240000 : ℝ), 7500, (-(9261 / 16000) : ℝ), 0, 5 / 2, 9 / 20, []⟩] :=
  cex_frame cexMouse ((1 : ℕ) : ℝ) ((15000 : ℕ) : ℝ)
    (createParticles 1 15000 cexRand) 34 35
    (15557 / 20000 : ℝ) 7500 (-(136517 / 240000) : ℝ) (5 / 2) (9 / 20) (50167 / 240000 : ℝ) (1 / 8 : ℝ) (-(136517 / 240000) : ℝ) (-(9261 / 16000) : ℝ) (20167 / 240000 : ℝ)
    (by norm_num) cexPool34 (by norm_num [cexMouse, cexMx, cexMxNums, List.getD]) (by norm_num) (by norm_num)
    (by norm_num) (by norm_num) (by norm_num) (by norm_num)

/-- Frame 36 of the C2 counterexample trajectory. -/
theorem cexPool36 : poolTraj cexMouse ((1 : ℕ) : ℝ) ((15000 : ℕ) : ℝ) (createParticles 1 15000 cexRand) 36 =
    [⟨(-(22187 / 60000) : ℝ), 7500, (141299 / 240000 : ℝ), 0, 5 / 2, 9 / 20, []⟩] :=
  cex_frame cexMouse ((1 : ℕ) : ℝ) ((15000 : ℕ) : ℝ)
    (createParticles 1 15000 cexRand) 35 36
    (50167 / 240000 : ℝ) 7500 (-(9261 / 16000) : ℝ) (5 / 2) (9 / 20) (-(22187 / 60000) : ℝ) (1 : ℝ) (9261 / 16000 : ℝ) (141299 / 240000 : ℝ) (37813 / 60000 : ℝ)
    (by norm_num) cexPool35 (by norm_num [cexMouse, cexMx, cexMxNums, List.getD]) (by norm_num) (by norm_num)
    (by norm_num) (by norm_num) (by norm_num) (by norm_num)

/-- Frame 37 of the C2 counterexample trajectory. -/
theorem cexPool37 : poolTraj cexMouse ((1 : ℕ) : ℝ) ((15000 : ℕ) : ℝ) (createParticles 1 15000 cexRand) 37 =
    [⟨(17517 / 80000 : ℝ), 7500, (47897 / 80000 : ℝ), 0, 5 / 2, 9 / 20, []⟩] :=
  cex_frame cexMouse ((1 : ℕ) : ℝ) ((15000 : ℕ) : ℝ)
    (createParticles 1 15000 cexRand) 36 37
    (-(22187 / 60000) : ℝ) 7500 (141299 / 240000 : ℝ) (5 / 2) (9 / 20) (17517 / 80000 : ℝ) (1 / 2 : ℝ) (141299 / 240000 : ℝ) (47897 / 80000 : ℝ) (57517 / 80000 : ℝ)
    (by norm_num) cexPool36 (by norm_num [cexMouse, cexMx, cexMxNums, List.getD]) (by norm_num) (by norm_num)
    (by norm_num) (by norm_num) (by norm_num) (by norm_num)

/-- Frame 38 of the C2 counterexample trajectory. -/
theorem cexPool38 : poolTraj cexMouse ((1 : ℕ) : ℝ) ((15000 : ℕ) : ℝ) (createParticles 1 15000 cexRand) 38 =
    [⟨(32707 / 40000 : ℝ), 7500, (146089 / 240000 : ℝ), 0, 5 / 2, 9 / 20, []⟩] :=
  cex_frame cexMouse ((1 : ℕ) : ℝ) ((15000 : ℕ) : ℝ)
    (createParticles 1 15000 cexRand) 37 38
    (17517 / 80000 : ℝ) 7500 (47897 / 80000 : ℝ) (5 / 2) (9 / 20) (32707 / 40000 : ℝ) (1 / 8 : ℝ) (47897 / 80000 : ℝ) (146089 / 240000 : ℝ) (37707 / 40000 : ℝ)
    (by norm_num) cexPool37 (by norm_num [cexMouse, cexMx, cexMxNums, List.getD]) (by norm_num) (by norm_num)
    (by norm_num) (by norm_num) (by norm_num) (by norm_num)

/-- Frame 39 of the C2 counterexample trajectory. -/
theorem cexPool39 : poolTraj cexMouse ((1 : ℕ) : ℝ) ((15000 : ℕ) : ℝ) (createParticles 1 15000 cexRand) 39 =
    [⟨(342331 / 240000 : ℝ), 7500, (-(49491 / 80000) : ℝ), 0, 5 / 2, 9 / 20, []⟩] :=
  cex_frame cexMouse ((1 : ℕ) : ℝ) ((15000 : ℕ) : ℝ)
    (createParticles 1 15000 cexRand) 38 39
    (32707 / 40000 : ℝ) 7500 (146089 / 240000 : ℝ) (5 / 2) (9 / 20) (342331 / 240000 : ℝ) (1 : ℝ) (-(146089 / 240000) : ℝ) (-(49491 / 80000) : ℝ) (102331 / 240000 : ℝ)
    (by norm_num) cexPool38 (by norm_num [cexMouse, cexMx, cexMxNums, List.getD]) (by norm_num) (by norm_num)
    (by norm_num) (by norm_num) (by norm_num) (by norm_num)

/-- Frame 40 of the C2 counterexample trajectory. -/
theorem cexPool40 : poolTraj cexMouse ((1 : ℕ) : ℝ) ((15000 : ℕ) : ℝ) (createParticles 1 15000 cexRand) 40 =
    [⟨(96929 / 120000 : ℝ), 7500, (-(30173 / 48000) : ℝ), 0, 5 / 2, 9 / 20, []⟩] :=
  cex_frame cexMouse ((1 : ℕ) : ℝ) ((15000 : ℕ) : ℝ)
    (createParticles 1 15000 cexRand) 39 40
    (342331 / 240000 : ℝ) 7500 (-(49491 / 80000) : ℝ) (5 / 2) (9 / 20) (96929 / 120000 : ℝ) (1 / 2 : ℝ) (-(49491 / 80000) : ℝ) (-(30173 / 48000) : ℝ) (36929 / 120000 : ℝ)
    (by norm_num) cexPool39 (by norm_num [cexMouse, cexMx, cexMxNums, List.getD]) (by norm_num) (by norm_num)
    (by norm_num) (by norm_num) (by norm_num) (by norm_num)

/-- Frame 41 of the C2 counterexample trajectory. -/
theorem cexPool41 : poolTraj cexMouse ((1 : ℕ) : ℝ) ((15000 : ℕ) : ℝ) (createParticles 1 15000 cexRand) 41 =
    [⟨(14331 / 80000 : ℝ), 7500, (-(153263 / 240000) : ℝ), 0, 5 / 2, 9 / 20, []⟩] :=
  cex_frame cexMouse ((1 : ℕ) : ℝ) ((15000 : ℕ) : ℝ)
    (createParticles 1 15000 cexRand) 40 41
    (96929 / 120000 : ℝ) 7500 (-(30173 / 48000) : ℝ) (5 / 2) (9 / 20) (14331 / 80000 : ℝ) (1 / 8 : ℝ) (-(30173 / 48000) : ℝ) (-(153263 / 240000) : ℝ) (4331 / 80000 : ℝ)
    (by norm_num) cexPool40 (by norm_num [cexMouse, cexMx, cexMxNums, List.getD]) (by norm_num) (by norm_num)
    (by norm_num) (by norm_num) (by norm_num) (by norm_num)

/-- Frame 42 of the C2 counterexample trajectory. -/
theorem cexPool42 : poolTraj cexMouse ((1 : ℕ) : ℝ) ((15000 : ℕ) : ℝ) (createParticles 1 15000 cexRand) 42 =
    [⟨(-(11027 / 24000) : ℝ), 7500, (155647 / 240000 : ℝ), 0, 5 / 2, 9 / 20, []⟩] :=
  cex_frame cexMouse ((1 : ℕ) : ℝ) ((15000 : ℕ) : ℝ)
    (createParticles 1 15000 cexRand) 41 42
    (14331 / 80000 : ℝ) 7500 (-(153263 / 240000) : ℝ) (5 / 2) (9 / 20) (-(11027 / 24000) : ℝ) (1 : ℝ) (153263 / 240000 : ℝ) (155647 / 240000 : ℝ) (12973 / 24000 : ℝ)
    (by norm_num) cexPool41 (by norm_num [cexMouse, cexMx, cexMxNums, List.getD]) (by norm_num) (by norm_num)
    (by norm_num) (by norm_num) (by norm_num) (by norm_num)

/-- Frame 43 of the C2 counterexample trajectory. -/
theorem cexPool43 : poolTraj cexMouse ((1 : ℕ) : ℝ) ((15000 : ℕ) : ℝ) (createParticles 1 15000 cexRand) 43 =
    [⟨(45377 / 240000 : ℝ), 7500, (158039 / 240000 : ℝ), 0, 5 / 2, 9 / 20, []⟩] :=
  cex_frame cexMouse ((1 : ℕ) : ℝ) ((15000 : ℕ) : ℝ)
    (createParticles 1 15000 cexRand) 42 43
    (-(11027 / 24000) : ℝ) 7500 (155647 / 240000 : ℝ) (5 / 2) (9 / 20) (45377 / 240000 : ℝ) (1 / 2 : ℝ) (155647 / 240000 : ℝ) (158039 / 240000 : ℝ) (165377 / 240000 : ℝ)
    (by norm_num) cexPool42 (by norm_num [cexMouse, cexMx, cexMxNums, List.getD]) (by norm_num) (by norm_num)
    (by norm_num) (by norm_num) (by norm_num) (by norm_num)

/-- Frame 44 of the C2 counterexample trajectory. -/
theorem cexPool44 : poolTraj cexMouse ((1 : ℕ) : ℝ) ((15000 : ℕ) : ℝ) (createParticles 1 15000 cexRand) 44 =
    [⟨(25427 / 30000 : ℝ), 7500, (53479 / 80000 : ℝ), 0, 5 / 2, 9 / 20, []⟩] :=
  cex_frame cexMouse ((1 : ℕ) : ℝ) ((15000 : ℕ) : ℝ)
    (createParticles 1 15000 cexRand) 43 44
    (45377 / 240000 : ℝ) 7500 (158039 / 240000 : ℝ) (5 / 2) (9 / 20) (25427 / 30000 : ℝ) (1 / 8 : ℝ) (158039 / 240000 : ℝ) (53479 / 80000 : ℝ) (29177 / 30000 : ℝ)
    (by norm_num) cexPool43 (by norm_num [cexMouse, cexMx, cexMxNums, List.getD]) (by norm_num) (by norm_num)
    (by norm_num) (by norm_num) (by norm_num) (by norm_num)

/-- Frame 45 of the C2 counterexample trajectory. -/
theorem cexPool45 : poolTraj cexMouse ((1 : ℕ) : ℝ) ((15000 : ℕ) : ℝ) (createParticles 1 15000 cexRand) 45 =
    [⟨(363853 / 240000 : ℝ), 7500, (-(54271 / 80000) : ℝ), 0, 5 / 2, 9 / 20, []⟩] :=
  cex_frame cexMouse ((1 : ℕ) : ℝ) ((15000 : ℕ) : ℝ)
    (createParticles 1 15000 cexRand) 44 45
    (25427 / 30000 : ℝ) 7500 (53479 / 80000 : ℝ) (5 / 2) (9 / 20) (363853 / 240000 : ℝ) (3 / 2 : ℝ) (-(53479 / 80000) : ℝ) (-(54271 / 80000) : ℝ) (3853 / 240000 : ℝ)
    (by norm_num) cexPool44 (by norm_num [cexMouse, cexMx, cexMxNums, List.getD]) (by norm_num) (by norm_num)
    (by norm_num) (by norm_num) (by norm_num) (by norm_num)

/-- Frame 46 of the C2 counterexample trajectory. -/
theorem cexPool46 : poolTraj cexMouse ((1 : ℕ) : ℝ) ((15000 : ℕ) : ℝ) (createParticles 1 15000 cexRand) 46 =
    [⟨(2513 / 3000 : ℝ), 7500, (-(33041 / 48000) : ℝ), 0, 5 / 2, 9 / 20, []⟩] :=
  cex_frame cexMouse ((1 : ℕ) : ℝ) ((15000 : ℕ) : ℝ)
    (createParticles 1 15000 cexRand) 45 46
    (363853 / 240000 : ℝ) 7500 (-(54271 / 80000) : ℝ) (5 / 2) (9 / 20) (2513 / 3000 : ℝ) (1 / 2 : ℝ) (-(54271 / 80000) : ℝ) (-(33041 / 48000) : ℝ) (1013 / 3000 : ℝ)
    (by norm_num) cexPool45 (by norm_num [cexMouse, cexMx, cexMxNums, List.getD]) (by norm_num) (by norm_num)
    (by norm_num) (by norm_num) (by norm_num) (by norm_num)

/-- Frame 47 of the C2 counterexample trajectory. -/
theorem cexPool47 : poolTraj cexMouse ((1 : ℕ) : ℝ) ((15000 : ℕ) : ℝ) (createParticles 1 15000 cexRand) 47 =
    [⟨(2389 / 16000 : ℝ), 7500, (-(167603 / 240000) : ℝ), 0, 5 / 2, 9 / 20, []⟩] :=
  cex_frame cexMouse ((1 : ℕ) : ℝ) ((15000 : ℕ) : ℝ)
    (createParticles 1 15000 cexRand) 46 47
    (2513 / 3000 : ℝ) 7500 (-(33041 / 48000) : ℝ) (5 / 2) (9 / 20) (2389 / 16000 : ℝ) (1 / 8 : ℝ) (-(33041 / 48000) : ℝ) (-(167603 / 240000) : ℝ) (389 / 16000 : ℝ)
    (by norm_num) cexPool46 (by norm_num [cexMouse, cexMx, cexMxNums, List.getD]) (by norm_num) (by norm_num)
    (by norm_num) (by norm_num) (by norm_num) (by norm_num)

/-- Frame 48 of the C2 counterexample trajectory. -/
theorem cexPool48 : poolTraj cexMouse ((1 : ℕ) : ℝ) ((15000 : ℕ) : ℝ) (createParticles 1 15000 cexRand) 48 =
    [⟨(-(16471 / 30000) : ℝ), 7500, (169979 / 240000 : ℝ), 0, 5 / 2, 9 / 20, []⟩] :=
  cex_frame cexMouse ((1 : ℕ) : ℝ) ((15000 : ℕ) : ℝ)
    (createParticles 1 15000 cexRand) 47 48
    (2389 / 16000 : ℝ) 7500 (-(167603 / 240000) : ℝ) (5 / 2) (9 / 20) (-(16471 / 30000) : ℝ) (3 / 2 : ℝ) (167603 / 240000 : ℝ) (169979 / 240000 : ℝ) (28529 / 30000 : ℝ)
    (by norm_num) cexPool47 (by norm_num [cexMouse, cexMx, cexMxNums, List.getD]) (by norm_num) (by norm_num)
    (by norm_num) (by norm_num) (by norm_num) (by norm_num)

/-- Frame 49 of the C2 counterexample trajectory. -/
theorem cexPool49 : poolTraj cexMouse ((1 : ℕ) : ℝ) ((15000 : ℕ) : ℝ) (createParticles 1 15000 cexRand) 49 =
    [⟨(12737 / 80000 : ℝ), 7500, (57457 / 80000 : ℝ), 0, 5 / 2, 9 / 20, []⟩] :=
  cex_frame cexMouse ((1 : ℕ) : ℝ) ((15000 : ℕ) : ℝ)
    (createParticles 1 15000 cexRand) 48 49
    (-(16471 / 30000) : ℝ) 7500 (169979 / 240000 : ℝ) (5 / 2) (9 / 20) (12737 / 80000 : ℝ) (1 / 2 : ℝ) (169979 / 240000 : ℝ) (57457 / 80000 : ℝ) (52737 / 80000 : ℝ)
    (by norm_num) cexPool48 (by norm_num [cexMouse, cexMx, cexMxNums, List.getD]) (by norm_num) (by norm_num)
    (by norm_num) (by norm_num) (by norm_num) (by norm_num)

/-- Frame 50 of the C2 counterexample trajectory. -/
theorem cexPool50 : poolTraj cexMouse ((1 : ℕ) : ℝ) ((15000 : ℕ) : ℝ) (createParticles 1 15000 cexRand) 50 =
    [⟨(35097 / 40000 : ℝ), 7500, (17477 / 24000 : ℝ), 0, 5 / 2, 9 / 20, []⟩] :=
  cex_frame cexMouse ((1 : ℕ) : ℝ) ((15000 : ℕ) : ℝ)
    (createParticles 1 15000 cexRand) 49 50
    (12737 / 80000 : ℝ) 7500 (57457 / 80000 : ℝ) (5 / 2) (9 / 20) (35097 / 40000 : ℝ) (1 / 16 : ℝ) (57457 / 80000 : ℝ) (17477 / 24000 : ℝ) (37597 / 40000 : ℝ)
    (by norm_num) cexPool49 (by norm_num [cexMouse, cexMx, cexMxNums, List.getD]) (by norm_num) (by norm_num)
    (by norm_num) (by norm_num) (by norm_num) (by norm_num)

/-- Frame 51 of the C2 counterexample trajectory. -/
theorem cexPool51 : poolTraj cexMouse ((1 : ℕ) : ℝ) ((15000 : ℕ) : ℝ) (createParticles 1 15000 cexRand) 51 =
    [⟨(48169 / 30000 : ℝ), 7500, (-(88573 / 120000) : ℝ), 0, 5 / 2, 9 / 20, []⟩] :=
  cex_frame cexMouse ((1 : ℕ) : ℝ) ((15000 : ℕ) : ℝ)
    (createParticles 1 15000 cexRand) 50 51
    (35097 / 40000 : ℝ) 7500 (17477 / 24000 : ℝ) (5 / 2) (9 / 20) (48169 / 30000 : ℝ) (3 / 2 : ℝ) (-(17477 / 24000) : ℝ) (-(88573 / 120000) : ℝ) (3169 / 30000 : ℝ)
    (by norm_num) cexPool50 (by norm_num [cexMouse, cexMx, cexMxNums, List.getD]) (by norm_num) (by norm_num)
    (by norm_num) (by norm_num) (by norm_num) (by norm_num)

/-- Frame 52 of the C2 counterexample trajectory. -/
theorem cexPool52 : poolTraj cexMouse ((1 : ℕ) : ℝ) ((15000 : ℕ) : ℝ) (createParticles 1 15000 cexRand) 52 =
    [⟨(34701 / 40000 : ℝ), 7500, (-(29923 / 40000) : ℝ), 0, 5 / 2, 9 / 20, []⟩] :=
  cex_frame cexMouse ((1 : ℕ) : ℝ) ((15000 : ℕ) : ℝ)
    (createParticles 1 15000 cexRand) 51 52
    (48169 / 30000 : ℝ) 7500 (-(88573 / 120000) : ℝ) (5 / 2) (9 / 20) (34701 / 40000 : ℝ) (1 / 2 : ℝ) (-(88573 / 120000) : ℝ) (-(29923 / 40000) : ℝ) (14701 / 40000 : ℝ)
    (by norm_num) cexPool51 (by norm_num [cexMouse, cexMx, cexMxNums, List.getD]) (by norm_num) (by norm_num)
    (by norm_num) (by norm_num) (by norm_num) (by norm_num)

/-- Frame 53 of the C2 counterexample trajectory. -/
theorem cexPool53 : poolTraj cexMouse ((1 : ℕ) : ℝ) ((15000 : ℕ) : ℝ) (createParticles 1 15000 cexRand) 53 =
    [⟨(2389 / 20000 : ℝ), 7500, (-(181937 / 240000) : ℝ), 0, 5 / 2, 9 / 20, []⟩] :=
  cex_frame cexMouse ((1 : ℕ) : ℝ) ((15000 : ℕ) : ℝ)
    (createParticles 1 15000 cexRand) 52 53
    (34701 / 40000 : ℝ) 7500 (-(29923 / 40000) : ℝ) (5 / 2) (9 / 20) (2389 / 20000 : ℝ) (1 / 16 : ℝ) (-(29923 / 40000) : ℝ) (-(181937 / 240000) : ℝ) (1139 / 20000 : ℝ)
    (by norm_num) cexPool52 (by norm_num [cexMouse, cexMx, cexMxNums, List.getD]) (by norm_num) (by norm_num)
    (by norm_num) (by norm_num) (by norm_num) (by norm_num)

/-- Frame 54 of the C2 counterexample trajectory. -/
theorem cexPool54 : poolTraj cexMouse ((1 : ℕ) : ℝ) ((15000 : ℕ) : ℝ) (createParticles 1 15000 cexRand) 54 =
    [⟨(-(153269 / 240000) : ℝ), 7500, (184313 / 240000 : ℝ), 0, 5 / 2, 9 / 20, []⟩] :=
  cex_frame cexMouse ((1 : ℕ) : ℝ) ((15000 : ℕ) : ℝ)
    (createParticles 1 15000 cexRand) 53 54
    (2389 / 20000 : ℝ) 7500 (-(181937 / 240000) : ℝ) (5 / 2) (9 / 20) (-(153269 / 240000) : ℝ) (3 / 2 : ℝ) (181937 / 240000 : ℝ) (184313 / 240000 : ℝ) (206731 / 240000 : ℝ)
    (by norm_num) cexPool53 (by norm_num [cexMouse, cexMx, cexMxNums, List.getD]) (by norm_num) (by norm_num)
    (by norm_num) (by norm_num) (by norm_num) (by norm_num)

/-- Frame 55 of the C2 counterexample trajectory. -/
theorem cexPool55 : poolTraj cexMouse ((1 : ℕ) : ℝ) ((15000 : ℕ) : ℝ) (createParticles 1 15000 cexRand) 55 =
    [⟨(2587 / 20000 : ℝ), 7500, (12447 / 16000 : ℝ), 0, 5 / 2, 9 / 20, []⟩] :=
  cex_frame cexMouse ((1 : ℕ) : ℝ) ((15000 : ℕ) : ℝ)
    (createParticles 1 15000 cexRand) 54 55
    (-(153269 / 240000) : ℝ) 7500 (184313 / 240000 : ℝ) (5 / 2) (9 / 20) (2587 / 20000 : ℝ) (1 / 2 : ℝ) (184313 / 240000 : ℝ) (12447 / 16000 : ℝ) (12587 / 20000 : ℝ)
    (by norm_num) cexPool54 (by norm_num [cexMouse, cexMx, cexMxNums, List.getD]) (by norm_num) (by norm_num)
    (by norm_num) (by norm_num) (by norm_num) (by norm_num)

/-- Frame 56 of the C2 counterexample trajectory. -/
theorem cexPool56 : poolTraj cexMouse ((1 : ℕ) : ℝ) ((15000 : ℕ) : ℝ) (createParticles 1 15000 cexRand) 56 =
    [⟨(72583 / 80000 : ℝ), 7500, (11819 / 15000 : ℝ), 0, 5 / 2, 9 / 20, []⟩] :=
  cex_frame cexMouse ((1 : ℕ) : ℝ) ((15000 : ℕ) : ℝ)
    (createParticles 1 15000 cexRand) 55 56
    (2587 / 20000 : ℝ) 7500 (12447 / 16000 : ℝ) (5 / 2) (9 / 20) (72583 / 80000 : ℝ) (1 / 16 : ℝ) (12447 / 16000 : ℝ) (11819 / 15000 : ℝ) (77583 / 80000 : ℝ)
    (by norm_num) cexPool55 (by norm_num [cexMouse, cexMx, cexMxNums, List.getD]) (by norm_num) (by norm_num)
    (by norm_num) (by norm_num) (by norm_num) (by norm_num)

/-- Frame 57 of the C2 counterexample trajectory. -/
theorem cexPool57 : poolTraj cexMouse ((1 : ℕ) : ℝ) ((15000 : ℕ) : ℝ) (createParticles 1 15000 cexRand) 57 =
    [⟨(406853 / 240000 : ℝ), 7500, (-(4787 / 6000) : ℝ), 0, 5 / 2, 9 / 20, []⟩] :=
  cex_frame cexMouse ((1 : ℕ) : ℝ) ((15000 : ℕ) : ℝ)
    (createParticles 1 15000 cexRand) 56 57
    (72583 / 80000 : ℝ) 7500 (11819 / 15000 : ℝ) (5 / 2) (9 / 20) (406853 / 240000 : ℝ) (3 / 2 : ℝ) (-(11819 / 15000) : ℝ) (-(4787 / 6000) : ℝ) (46853 / 240000 : ℝ)
    (by norm_num) cexPool56 (by norm_num [cexMouse, cexMx, cexMxNums, List.getD]) (by norm_num) (by norm_num)
    (by norm_num) (by norm_num) (by norm_num) (by norm_num)

/-- Frame 58 of the C2 counterexample trajectory. -/
theorem cexPool58 : poolTraj cexMouse ((1 : ℕ) : ℝ) ((15000 : ℕ) : ℝ) (createParticles 1 15000 cexRand) 58 =
    [⟨(71791 / 80000 : ℝ), 7500, (-(4039 / 5000) : ℝ), 0, 5 / 2, 9 / 20, []⟩] :=
  cex_frame cexMouse ((1 : ℕ) : ℝ) ((15000 : ℕ) : ℝ)
    (createParticles 1 15000 cexRand) 57 58
    (406853 / 240000 : ℝ) 7500 (-(4787 / 6000) : ℝ) (5 / 2) (9 / 20) (71791 / 80000 : ℝ) (1 / 2 : ℝ) (-(4787 / 6000) : ℝ) (-(4039 / 5000) : ℝ) (31791 / 80000 : ℝ)
    (by norm_num) cexPool57 (by norm_num [cexMouse, cexMx, cexMxNums, List.getD]) (by norm_num) (by norm_num)
    (by norm_num) (by norm_num) (by norm_num) (by norm_num)

/-- Frame 59 of the C2 counterexample trajectory. -/
theorem cexPool59 : poolTraj cexMouse ((1 : ℕ) : ℝ) ((15000 : ℕ) : ℝ) (createParticles 1 15000 cexRand) 59 =
    [⟨(7167 / 80000 : ℝ), 7500, (-(196271 / 240000) : ℝ), 0, 5 / 2, 9 / 20, []⟩] :=
  cex_frame cexMouse ((1 : ℕ) : ℝ) ((15000 : ℕ) : ℝ)
    (createParticles 1 15000 cexRand) 58 59
    (71791 / 80000 : ℝ) 7500 (-(4039 / 5000) : ℝ) (5 / 2) (9 / 20) (7167 / 80000 : ℝ) (1 / 16 : ℝ) (-(4039 / 5000) : ℝ) (-(196271 / 240000) : ℝ) (2167 / 80000 : ℝ)
    (by norm_num) cexPool58 (by norm_num [cexMouse, cexMx, cexMxNums, List.getD]) (by norm_num) (by norm_num)
    (by norm_num) (by norm_num) (by norm_num) (by norm_num)

/-- Frame 60 of the C2 counterexample trajectory. -/
theorem cexPool60 : poolTraj cexMouse ((1 : ℕ) : ℝ) ((15000 : ℕ) : ℝ) (createParticles 1 15000 cexRand) 60 =
    [⟨(-(17477 / 24000) : ℝ), 7500, (198647 / 240000 : ℝ), 0, 5 / 2, 9 / 20, []⟩] :=
  cex_frame cexMouse ((1 : ℕ) : ℝ) ((15000 : ℕ) : ℝ)
    (createParticles 1 15000 cexRand) 59 60
    (7167 / 80000 : ℝ) 7500 (-(196271 / 240000) : ℝ) (5 / 2) (9 / 20) (-(17477 / 24000) : ℝ) (3 / 2 : ℝ) (196271 / 240000 : ℝ) (198647 / 240000 : ℝ) (18523 / 24000 : ℝ)
    (by norm_num) cexPool59 (by norm_num [cexMouse, cexMx, cexMxNums, List.getD]) (by norm_num) (by norm_num)
    (by norm_num) (by norm_num) (by norm_num) (by norm_num)

/-- Frame 61 of the C2 counterexample trajectory. -/
theorem cexPool61 : poolTraj cexMouse ((1 : ℕ) : ℝ) ((15000 : ℕ) : ℝ) (createParticles 1 15000 cexRand) 61 =
    [⟨(7959 / 80000 : ℝ), 7500, (67013 / 80000 : ℝ), 0, 5 / 2, 9 / 20, []⟩] :=
  cex_frame cexMouse ((1 : ℕ) : ℝ) ((15000 : ℕ) : ℝ)
    (createParticles 1 15000 cexRand) 60 61
    (-(17477 / 24000) : ℝ) 7500 (198647 / 240000 : ℝ) (5 / 2) (9 / 20) (7959 / 80000 : ℝ) (1 / 2 : ℝ) (198647 / 240000 : ℝ) (67013 / 80000 : ℝ) (47959 / 80000 : ℝ)
    (by norm_num) cexPool60 (by norm_num [cexMouse, cexMx, cexMxNums, List.getD]) (by norm_num) (by norm_num)
    (by norm_num) (by norm_num) (by norm_num) (by norm_num)

/-- Frame 62 of the C2 counterexample trajectory. -/
theorem cexPool62 : poolTraj cexMouse ((1 : ℕ) : ℝ) ((15000 : ℕ) : ℝ) (createParticles 1 15000 cexRand) 62 =
    [⟨(18743 / 20000 : ℝ), 7500, (101719 / 120000 : ℝ), 0, 5 / 2, 9 / 20, []⟩] :=
  cex_frame cexMouse ((1 : ℕ) : ℝ) ((15000 : ℕ) : ℝ)
    (createParticles 1 15000 cexRand) 61 62
    (7959 / 80000 : ℝ) 7500 (67013 / 80000 : ℝ) (5 / 2) (9 / 20) (18743 / 20000 : ℝ) (1 / 16 : ℝ) (67013 / 80000 : ℝ) (101719 / 120000 : ℝ) (19993 / 20000 : ℝ)
    (by norm_num) cexPool61 (by norm_num [cexMouse, cexMx, cexMxNums, List.getD]) (by norm_num) (by norm_num)
    (by norm_num) (by norm_num) (by norm_num) (by norm_num)

/-- Frame 63 of the C2 counterexample trajectory. -/
theorem cexPool63 : poolTraj cexMouse ((1 : ℕ) : ℝ) ((15000 : ℕ) : ℝ) (createParticles 1 15000 cexRand) 63 =
    [⟨(214177 / 120000 : ℝ), 7500, (-(102907 / 120000) : ℝ), 0, 5 / 2, 9 / 20, []⟩] :=
  cex_frame cexMouse ((1 : ℕ) : ℝ) ((15000 : ℕ) : ℝ)
    (createParticles 1 15000 cexRand) 62 63
    (18743 / 20000 : ℝ) 7500 (101719 / 120000 : ℝ) (5 / 2) (9 / 20) (214177 / 120000 : ℝ) (3 / 2 : ℝ) (-(101719 / 120000) : ℝ) (-(102907 / 120000) : ℝ) (34177 / 120000 : ℝ)
    (by norm_num) cexPool62 (by norm_num [cexMouse, cexMx, cexMxNums, List.getD]) (by norm_num) (by norm_num)
    (by norm_num) (by norm_num) (by norm_num) (by norm_num)

/-- Frame 64 of the C2 counterexample trajectory. -/
theorem cexPool64 : poolTraj cexMouse ((1 : ℕ) : ℝ) ((15000 : ℕ) : ℝ) (createParticles 1 15000 cexRand) 64 =
    [⟨(3709 / 4000 : ℝ), 7500, (-(34701 / 40000) : ℝ), 0, 5 / 2, 9 / 20, []⟩] :=
  cex_frame cexMouse ((1 : ℕ) : ℝ) ((15000 : ℕ) : ℝ)
    (createParticles 1 15000 cexRand) 63 64
    (214177 / 120000 : ℝ) 7500 (-(102907 / 120000) : ℝ) (5 / 2) (9 / 20) (3709 / 4000 : ℝ) (1 / 2 : ℝ) (-(102907 / 120000) : ℝ) (-(34701 / 40000) : ℝ) (1709 / 4000 : ℝ)
    (by norm_num) cexPool63 (by norm_num [cexMouse, cexMx, cexMxNums, List.getD]) (by norm_num) (by norm_num)
    (by norm_num) (by norm_num) (by norm_num) (by norm_num)

/-- Frame 65 of the C2 counterexample trajectory. -/
theorem cexPool65 : poolTraj cexMouse ((1 : ℕ) : ℝ) ((15000 : ℕ) : ℝ) (createParticles 1 15000 cexRand) 65 =
    [⟨(2389 / 40000 : ℝ), 7500, (-(421211 / 480000) : ℝ), 0, 5 / 2, 9 / 20, []⟩] :=
  cex_frame cexMouse ((1 : ℕ) : ℝ) ((15000 : ℕ) : ℝ)
    (createParticles 1 15000 cexRand) 64 65
    (3709 / 4000 : ℝ) 7500 (-(34701 / 40000) : ℝ) (5 / 2) (9 / 20) (2389 / 40000 : ℝ) (1 / 32 : ℝ) (-(34701 / 40000) : ℝ) (-(421211 / 480000) : ℝ) (1139 / 40000 : ℝ)
    (by norm_num) cexPool64 (by norm_num [cexMouse, cexMx, cexMxNums, List.getD]) (by norm_num) (by norm_num)
    (by norm_num) (by norm_num) (by norm_num) (by norm_num)

/-- Frame 66 of the C2 counterexample trajectory. -/
theorem cexPool66 : poolTraj cexMouse ((1 : ℕ) : ℝ) ((15000 : ℕ) : ℝ) (createParticles 1 15000 cexRand) 66 =
    [⟨(-(392543 / 480000) : ℝ), 7500, (425963 / 480000 : ℝ), 0, 5 / 2, 9 / 20, []⟩] :=
  cex_frame cexMouse ((1 : ℕ) : ℝ) ((15000 : ℕ) : ℝ)
    (createParticles 1 15000 cexRand) 65 66
    (2389 / 40000 : ℝ) 7500 (-(421211 / 480000) : ℝ) (5 / 2) (9 / 20) (-(392543 / 480000) : ℝ) (3 / 2 : ℝ) (421211 / 480000 : ℝ) (425963 / 480000 : ℝ) (327457 / 480000 : ℝ)
    (by norm_num) cexPool65 (by norm_num [cexMouse, cexMx, cexMxNums, List.getD]) (by norm_num) (by norm_num)
    (by norm_num) (by norm_num) (by norm_num) (by norm_num)

/-- Frame 67 of the C2 counterexample trajectory. -/
theorem cexPool67 : poolTraj cexMouse ((1 : ℕ) : ℝ) ((15000 : ℕ) : ℝ) (createParticles 1 15000 cexRand) 67 =
    [⟨(557 / 8000 : ℝ), 7500, (430747 / 480000 : ℝ), 0, 5 / 2, 9 / 20, []⟩] :=
  cex_frame cexMouse ((1 : ℕ) : ℝ) ((15000 : ℕ) : ℝ)
    (createParticles 1 15000 cexRand) 66 67
    (-(392543 / 480000) : ℝ) 7500 (425963 / 480000 : ℝ) (5 / 2) (9 / 20) (557 / 8000 : ℝ) (1 / 2 : ℝ) (425963 / 480000 : ℝ) (430747 / 480000 : ℝ) (4557 / 8000 : ℝ)
    (by norm_num) cexPool66 (by norm_num [cexMouse, cexMx, cexMxNums, List.getD]) (by norm_num) (by norm_num)
    (by norm_num) (by norm_num) (by norm_num) (by norm_num)

/-- Frame 68 of the C2 counterexample trajectory. -/
theorem cexPool68 : poolTraj cexMouse ((1 : ℕ) : ℝ) ((15000 : ℕ) : ℝ) (createParticles 1 15000 cexRand) 68 =
    [⟨(464167 / 480000 : ℝ), 7500, (72591 / 80000 : ℝ), 0, 5 / 2, 9 / 20, []⟩] :=
  cex_frame cexMouse ((1 : ℕ) : ℝ) ((15000 : ℕ) : ℝ)
    (createParticles 1 15000 cexRand) 67 68
    (557 / 8000 : ℝ) 7500 (430747 / 480000 : ℝ) (5 / 2) (9 / 20) (464167 / 480000 : ℝ) (1 / 32 : ℝ) (430747 / 480000 : ℝ) (72591 / 80000 : ℝ) (479167 / 480000 : ℝ)
    (by norm_num) cexPool67 (by norm_num [cexMouse, cexMx, cexMxNums, List.getD]) (by norm_num) (by norm_num)
    (by norm_num) (by norm_num) (by norm_num) (by norm_num)

/-- Frame 69 of the C2 counterexample trajectory. -/
theorem cexPool69 : poolTraj cexMouse ((1 : ℕ) : ℝ) ((15000 : ℕ) : ℝ) (createParticles 1 15000 cexRand) 69 =
    [⟨(899713 / 480000 : ℝ), 7500, (-(73383 / 80000) : ℝ), 0, 5 / 2, 9 / 20, []⟩] :=
  cex_frame cexMouse ((1 : ℕ) : ℝ) ((15000 : ℕ) : ℝ)
    (createParticles 1 15000 cexRand) 68 69
    (464167 / 480000 : ℝ) 7500 (72591 / 80000 : ℝ) (5 / 2) (9 / 20) (899713 / 480000 : ℝ) (3 / 2 : ℝ) (-(72591 / 80000) : ℝ) (-(73383 / 80000) : ℝ) (179713 / 480000 : ℝ)
    (by norm_num) cexPool68 (by norm_num [cexMouse, cexMx, cexMxNums, List.getD]) (by norm_num) (by norm_num)
    (by norm_num) (by norm_num) (by norm_num) (by norm_num)

/-- Frame 70 of the C2 counterexample trajectory. -/
theorem cexPool70 : poolTraj cexMouse ((1 : ℕ) : ℝ) ((15000 : ℕ) : ℝ) (createParticles 1 15000 cexRand) 70 =
    [⟨(91883 / 96000 : ℝ), 7500, (-(222541 / 240000) : ℝ), 0, 5 / 2, 9 / 20, []⟩] :=
  cex_frame cexMouse ((1 : ℕ) : ℝ) ((15000 : ℕ) : ℝ)
    (createParticles 1 15000 cexRand) 69 70
    (899713 / 480000 : ℝ) 7500 (-(73383 / 80000) : ℝ) (5 / 2) (9 / 20) (91883 / 96000 : ℝ) (1 / 2 : ℝ) (-(73383 / 80000) : ℝ) (-(222541 / 240000) : ℝ) (43883 / 96000 : ℝ)
    (by norm_num) cexPool69 (by norm_num [cexMouse, cexMx, cexMxNums, List.getD]) (by norm_num) (by norm_num)
    (by norm_num) (by norm_num) (by norm_num) (by norm_num)

/-- Frame 71 of the C2 counterexample trajectory. -/
theorem cexPool71 : poolTraj cexMouse ((1 : ℕ) : ℝ) ((15000 : ℕ) : ℝ) (createParticles 1 15000 cexRand) 71 =
    [⟨(14333 / 480000 : ℝ), 7500, (-(73383 / 80000) : ℝ), 0, 5 / 2, 9 / 20, []⟩] :=
  cex_frame cexMouse ((1 : ℕ) : ℝ) ((15000 : ℕ) : ℝ)
    (createParticles 1 15000 cexRand) 70 71
    (91883 / 96000 : ℝ) 7500 (-(222541 / 240000) : ℝ) (5 / 2) (9 / 20) (14333 / 480000 : ℝ) (1 / 2 : ℝ) (-(222541 / 240000) : ℝ) (-(73383 / 80000) : ℝ) (254333 / 480000 : ℝ)
    (by norm_num) cexPool70 (by norm_num [cexMouse, cexMx, cexMxNums, List.getD]) (by norm_num) (by norm_num)
    (by norm_num) (by norm_num) (by norm_num) (by norm_num)

/-- Frame 72 of the C2 counterexample trajectory. -/
theorem cexPool72 : poolTraj cexMouse ((1 : ℕ) : ℝ) ((15000 : ℕ) : ℝ) (createParticles 1 15000 cexRand) 72 =
    [⟨(-(85193 / 96000) : ℝ), 7500, (2967 / 3200 : ℝ), 0, 5 / 2, 9 / 20, []⟩] :=
  cex_frame cexMouse ((1 : ℕ) : ℝ) ((15000 : ℕ) : ℝ)
    (createParticles 1 15000 cexRand) 71 72
    (14333 / 480000 : ℝ) 7500 (-(73383 / 80000) : ℝ) (5 / 2) (9 / 20) (-(85193 / 96000) : ℝ) (3 / 2 : ℝ) (73383 / 80000 : ℝ) (2967 / 3200 : ℝ) (58807 / 96000 : ℝ)
    (by norm_num) cexPool71 (by norm_num [cexMouse, cexMx, cexMxNums, List.getD]) (by norm_num) (by norm_num)
    (by norm_num) (by norm_num) (by norm_num) (by norm_num)

/-- Frame 73 of the C2 counterexample trajectory. -/
theorem cexPool73 : poolTraj cexMouse ((1 : ℕ) : ℝ) ((15000 : ℕ) : ℝ) (createParticles 1 15000 cexRand) 73 =
    [⟨(3817 / 96000 : ℝ), 7500, (224917 / 240000 : ℝ), 0, 5 / 2, 9 / 20, []⟩] :=
  cex_frame cexMouse ((1 : ℕ) : ℝ) ((15000 : ℕ) : ℝ)
    (createParticles 1 15000 cexRand) 72 73
    (-(85193 / 96000) : ℝ) 7500 (2967 / 3200 : ℝ) (5 / 2) (9 / 20) (3817 / 96000 : ℝ) (1 / 2 : ℝ) (2967 / 3200 : ℝ) (224917 / 240000 : ℝ) (51817 / 96000 : ℝ)
    (by norm_num) cexPool72 (by norm_num [cexMouse, cexMx, cexMxNums, List.getD]) (by norm_num) (by norm_num)
    (by norm_num) (by norm_num) (by norm_num) (by norm_num)

/-- Frame 74 of the C2 counterexample trajectory. -/
theorem cexPool74 : poolTraj cexMouse ((1 : ℕ) : ℝ) ((15000 : ℕ) : ℝ) (createParticles 1 15000 cexRand) 74 =
    [⟨(468919 / 480000 : ℝ), 7500, (2967 / 3200 : ℝ), 0, 5 / 2, 9 / 20, []⟩] :=
  cex_frame cexMouse ((1 : ℕ) : ℝ) ((15000 : ℕ) : ℝ)
    (createParticles 1 15000 cexRand) 73 74
    (3817 / 96000 : ℝ) 7500 (224917 / 240000 : ℝ) (5 / 2) (9 / 20) (468919 / 480000 : ℝ) (1 / 2 : ℝ) (224917 / 240000 : ℝ) (2967 / 3200 : ℝ) (228919 / 480000 : ℝ)
    (by norm_num) cexPool73 (by norm_num [cexMouse, cexMx, cexMxNums, List.getD]) (by norm_num) (by norm_num)
    (by norm_num) (by norm_num) (by norm_num) (by norm_num)

/-- Frame 75 of the C2 counterexample trajectory. -/
theorem cexPool75 : poolTraj cexMouse ((1 : ℕ) : ℝ) ((15000 : ℕ) : ℝ) (createParticles 1 15000 cexRand) 75 =
    [⟨(913969 / 480000 : ℝ), 7500, (-(74967 / 80000) : ℝ), 0, 5 / 2, 9 / 20, []⟩] :=
  cex_frame cexMouse ((1 : ℕ) : ℝ) ((15000 : ℕ) : ℝ)
    (createParticles 1 15000 cexRand) 74 75
    (468919 / 480000 : ℝ) 7500 (2967 / 3200 : ℝ) (5 / 2) (9 / 20) (913969 / 480000 : ℝ) (3 / 2 : ℝ) (-(2967 / 3200) : ℝ) (-(74967 / 80000) : ℝ) (193969 / 480000 : ℝ)
    (by norm_num) cexPool74 (by norm_num [cexMouse, cexMx, cexMxNums, List.getD]) (by norm_num) (by norm_num)
    (by norm_num) (by norm_num) (by norm_num) (by norm_num)

/-- Frame 76 of the C2 counterexample trajectory. -/
theorem cexPool76 : poolTraj cexMouse ((1 : ℕ) : ℝ) ((15000 : ℕ) : ℝ) (createParticles 1 15000 cexRand) 76 =
    [⟨(464167 / 480000 : ℝ), 7500, (-(227293 / 240000) : ℝ), 0, 5 / 2, 9 / 20, []⟩] :=
  cex_frame cexMouse ((1 : ℕ) : ℝ) ((15000 : ℕ) : ℝ)
    (createParticles 1 15000 cexRand) 75 76
    (913969 / 480000 : ℝ) 7500 (-(74967 / 80000) : ℝ) (5 / 2) (9 / 20) (464167 / 480000 : ℝ) (1 / 2 : ℝ) (-(74967 / 80000) : ℝ) (-(227293 / 240000) : ℝ) (224167 / 480000 : ℝ)
    (by norm_num) cexPool75 (by norm_num [cexMouse, cexMx, cexMxNums, List.getD]) (by norm_num) (by norm_num)
    (by norm_num) (by norm_num) (by norm_num) (by norm_num)

/-- Frame 77 of the C2 counterexample trajectory. -/
theorem cexPool77 : poolTraj cexMouse ((1 : ℕ) : ℝ) ((15000 : ℕ) : ℝ) (createParticles 1 15000 cexRand) 77 =
    [⟨(9581 / 480000 : ℝ), 7500, (-(74967 / 80000) : ℝ), 0, 5 / 2, 9 / 20, []⟩] :=
  cex_frame cexMouse ((1 : ℕ) : ℝ) ((15000 : ℕ) : ℝ)
    (createParticles 1 15000 cexRand) 76 77
    (464167 / 480000 : ℝ) 7500 (-(227293 / 240000) : ℝ) (5 / 2) (9 / 20) (9581 / 480000 : ℝ) (1 / 2 : ℝ) (-(227293 / 240000) : ℝ) (-(74967 / 80000) : ℝ) (249581 / 480000 : ℝ)
    (by norm_num) cexPool76 (by norm_num [cexMouse, cexMx, cexMxNums, List.getD]) (by norm_num) (by norm_num)
    (by norm_num) (by norm_num) (by norm_num) (by norm_num)

/-- Frame 78 of the C2 counterexample trajectory. -/
theorem cexPool78 : poolTraj cexMouse ((1 : ℕ) : ℝ) ((15000 : ℕ) : ℝ) (createParticles 1 15000 cexRand) 78 =
    [⟨(-(440221 / 480000) : ℝ), 7500, (75759 / 80000 : ℝ), 0, 5 / 2, 9 / 20, []⟩] :=
  cex_frame cexMouse ((1 : ℕ) : ℝ) ((15000 : ℕ) : ℝ)
    (createParticles 1 15000 cexRand) 77 78
    (9581 / 480000 : ℝ) 7500 (-(74967 / 80000) : ℝ) (5 / 2) (9 / 20) (-(440221 / 480000) : ℝ) (3 / 2 : ℝ) (74967 / 80000 : ℝ) (75759 / 80000 : ℝ) (279779 / 480000 : ℝ)
    (by norm_num) cexPool77 (by norm_num [cexMouse, cexMx, cexMxNums, List.getD]) (by norm_num) (by norm_num)
    (by norm_num) (by norm_num) (by norm_num) (by norm_num)

/-- Frame 79 of the C2 counterexample trajectory. -/
theorem cexPool79 : poolTraj cexMouse ((1 : ℕ) : ℝ) ((15000 : ℕ) : ℝ) (createParticles 1 15000 cexRand) 79 =
    [⟨(14333 / 480000 : ℝ), 7500, (229669 / 240000 : ℝ), 0, 5 / 2, 9 / 20, []⟩] :=
  cex_frame cexMouse ((1 : ℕ) : ℝ) ((15000 : ℕ) : ℝ)
    (createParticles 1 15000 cexRand) 78 79
    (-(440221 / 480000) : ℝ) 7500 (75759 / 80000 : ℝ) (5 / 2) (9 / 20) (14333 / 480000 : ℝ) (1 / 2 : ℝ) (75759 / 80000 : ℝ) (229669 / 240000 : ℝ) (254333 / 480000 : ℝ)
    (by norm_num) cexPool78 (by norm_num [cexMouse, cexMx, cexMxNums, List.getD]) (by norm_num) (by norm_num)
    (by norm_num) (by norm_num) (by norm_num) (by norm_num)

/-- Frame 80 of the C2 counterexample trajectory. -/
theorem cexPool80 : poolTraj cexMouse ((1 : ℕ) : ℝ) ((15000 : ℕ) : ℝ) (createParticles 1 15000 cexRand) 80 =
    [⟨(473671 / 480000 : ℝ), 7500, (75759 / 80000 : ℝ), 0, 5 / 2, 9 / 20, []⟩] :=
  cex_frame cexMouse ((1 : ℕ) : ℝ) ((15000 : ℕ) : ℝ)
    (createParticles 1 15000 cexRand) 79 80
    (14333 / 480000 : ℝ) 7500 (229669 / 240000 : ℝ) (5 / 2) (9 / 20) (473671 / 480000 : ℝ) (1 / 2 : ℝ) (229669 / 240000 : ℝ) (75759 / 80000 : ℝ) (233671 / 480000 : ℝ)
    (by norm_num) cexPool79 (by norm_num [cexMouse, cexMx, cexMxNums, List.getD]) (by norm_num) (by norm_num)
    (by norm_num) (by norm_num) (by norm_num) (by norm_num)

/-- Frame 81 of the C2 counterexample trajectory. -/
theorem cexPool81 : poolTraj cexMouse ((1 : ℕ) : ℝ) ((15000 : ℕ) : ℝ) (createParticles 1 15000 cexRand) 81 =
    [⟨(37129 / 19200 : ℝ), 7500, (-(76551 / 80000) : ℝ), 0, 5 / 2, 9 / 20, []⟩] :=
  cex_frame cexMouse ((1 : ℕ) : ℝ) ((15000 : ℕ) : ℝ)
    (createParticles 1 15000 cexRand) 80 81
    (473671 / 480000 : ℝ) 7500 (75759 / 80000 : ℝ) (5 / 2) (9 / 20) (37129 / 19200 : ℝ) (3 / 2 : ℝ) (-(75759 / 80000) : ℝ) (-(76551 / 80000) : ℝ) (8329 / 19200 : ℝ)
    (by norm_num) cexPool80 (by norm_num [cexMouse, cexMx, cexMxNums, List.getD]) (by norm_num) (by norm_num)
    (by norm_num) (by norm_num) (by norm_num) (by norm_num)

/-- Frame 82 of the C2 counterexample trajectory. -/
theorem cexPool82 : poolTraj cexMouse ((1 : ℕ) : ℝ) ((15000 : ℕ) : ℝ) (createParticles 1 15000 cexRand) 82 =
    [⟨(468919 / 480000 : ℝ), 7500, (-(46409 / 48000) : ℝ), 0, 5 / 2, 9 / 20, []⟩] :=
  cex_frame cexMouse ((1 : ℕ) : ℝ) ((15000 : ℕ) : ℝ)
    (createParticles 1 15000 cexRand) 81 82
    (37129 / 19200 : ℝ) 7500 (-(76551 / 80000) : ℝ) (5 / 2) (9 / 20) (468919 / 480000 : ℝ) (1 / 2 : ℝ) (-(76551 / 80000) : ℝ) (-(46409 / 48000) : ℝ) (228919 / 480000 : ℝ)
    (by norm_num) cexPool81 (by norm_num [cexMouse, cexMx, cexMxNums, List.getD]) (by norm_num) (by norm_num)
    (by norm_num) (by norm_num) (by norm_num) (by norm_num)

/-- Frame 83 of the C2 counterexample trajectory. -/
theorem cexPool83 : poolTraj cexMouse ((1 : ℕ) : ℝ) ((15000 : ℕ) : ℝ) (createParticles 1 15000 cexRand) 83 =
    [⟨(4829 / 480000 : ℝ), 7500, (-(76551 / 80000) : ℝ), 0, 5 / 2, 9 / 20, []⟩] :=
  cex_frame cexMouse ((1 : ℕ) : ℝ) ((15000 : ℕ) : ℝ)
    (createParticles 1 15000 cexRand) 82 83
    (468919 / 480000 : ℝ) 7500 (-(46409 / 48000) : ℝ) (5 / 2) (9 / 20) (4829 / 480000 : ℝ) (1 / 2 : ℝ) (-(46409 / 48000) : ℝ) (-(76551 / 80000) : ℝ) (244829 / 480000 : ℝ)
    (by norm_num) cexPool82 (by norm_num [cexMouse, cexMx, cexMxNums, List.getD]) (by norm_num) (by norm_num)
    (by norm_num) (by norm_num) (by norm_num) (by norm_num)

/-- Frame 84 of the C2 counterexample trajectory. -/
theorem cexPool84 : poolTraj cexMouse ((1 : ℕ) : ℝ) ((15000 : ℕ) : ℝ) (createParticles 1 15000 cexRand) 84 =
    [⟨(-(454477 / 480000) : ℝ), 7500, (77343 / 80000 : ℝ), 0, 5 / 2, 9 / 20, []⟩] :=
  cex_frame cexMouse ((1 : ℕ) : ℝ) ((15000 : ℕ) : ℝ)
    (createParticles 1 15000 cexRand) 83 84
    (4829 / 480000 : ℝ) 7500 (-(76551 / 80000) : ℝ) (5 / 2) (9 / 20) (-(454477 / 480000) : ℝ) (3 / 2 : ℝ) (76551 / 80000 : ℝ) (77343 / 80000 : ℝ) (265523 / 480000 : ℝ)
    (by norm_num) cexPool83 (by norm_num [cexMouse, cexMx, cexMxNums, List.getD]) (by norm_num) (by norm_num)
    (by norm_num) (by norm_num) (by norm_num) (by norm_num)

/-- Frame 85 of the C2 counterexample trajectory. -/
theorem cexPool85 : poolTraj cexMouse ((1 : ℕ) : ℝ) ((15000 : ℕ) : ℝ) (createParticles 1 15000 cexRand) 85 =
    [⟨(9581 / 480000 : ℝ), 7500, (234421 / 240000 : ℝ), 0, 5 / 2, 9 / 20, []⟩] :=
  cex_frame cexMouse ((1 : ℕ) : ℝ) ((15000 : ℕ) : ℝ)
    (createParticles 1 15000 cexRand) 84 85
    (-(454477 / 480000) : ℝ) 7500 (77343 / 80000 : ℝ) (5 / 2) (9 / 20) (9581 / 480000 : ℝ) (1 / 2 : ℝ) (77343 / 80000 : ℝ) (234421 / 240000 : ℝ) (249581 / 480000 : ℝ)
    (by norm_num) cexPool84 (by norm_num [cexMouse, cexMx, cexMxNums, List.getD]) (by norm_num) (by norm_num)
    (by norm_num) (by norm_num) (by norm_num) (by norm_num)

/-- Frame 86 of the C2 counterexample trajectory. -/
theorem cexPool86 : poolTraj cexMouse ((1 : ℕ) : ℝ) ((15000 : ℕ) : ℝ) (createParticles 1 15000 cexRand) 86 =
    [⟨(478423 / 480000 : ℝ), 7500, (77343 / 80000 : ℝ), 0, 5 / 2, 9 / 20, []⟩] :=
  cex_frame cexMouse ((1 : ℕ) : ℝ) ((15000 : ℕ) : ℝ)
    (createParticles 1 15000 cexRand) 85 86
    (9581 / 480000 : ℝ) 7500 (234421 / 240000 : ℝ) (5 / 2) (9 / 20) (478423 / 480000 : ℝ) (1 / 2 : ℝ) (234421 / 240000 : ℝ) (77343 / 80000 : ℝ) (238423 / 480000 : ℝ)
    (by norm_num) cexPool85 (by norm_num [cexMouse, cexMx, cexMxNums, List.getD]) (by norm_num) (by norm_num)
    (by norm_num) (by norm_num) (by norm_num) (by norm_num)

/-- Frame 87 of the C2 counterexample trajectory. -/
theorem cexPool87 : poolTraj cexMouse ((1 : ℕ) : ℝ) ((15000 : ℕ) : ℝ) (createParticles 1 15000 cexRand) 87 =
    [⟨(942481 / 480000 : ℝ), 7500, (-(15627 / 16000) : ℝ), 0, 5 / 2, 9 / 20, []⟩] :=
  cex_frame cexMouse ((1 : ℕ) : ℝ) ((15000 : ℕ) : ℝ)
    (createParticles 1 15000 cexRand) 86 87
    (478423 / 480000 : ℝ) 7500 (77343 / 80000 : ℝ) (5 / 2) (9 / 20) (942481 / 480000 : ℝ) (3 / 2 : ℝ) (-(77343 / 80000) : ℝ) (-(15627 / 16000) : ℝ) (222481 / 480000 : ℝ)
    (by norm_num) cexPool86 (by norm_num [cexMouse, cexMx, cexMxNums, List.getD]) (by norm_num) (by norm_num)
    (by norm_num) (by norm_num) (by norm_num) (by norm_num)

/-- Frame 88 of the C2 counterexample trajectory. -/
theorem cexPool88 : poolTraj cexMouse ((1 : ℕ) : ℝ) ((15000 : ℕ) : ℝ) (createParticles 1 15000 cexRand) 88 =
    [⟨(473671 / 480000 : ℝ), 7500, (-(236797 / 240000) : ℝ), 0, 5 / 2, 9 / 20, []⟩] :=
  cex_frame cexMouse ((1 : ℕ) : ℝ) ((15000 : ℕ) : ℝ)
    (createParticles 1 15000 cexRand) 87 88
    (942481 / 480000 : ℝ) 7500 (-(15627 / 16000) : ℝ) (5 / 2) (9 / 20) (473671 / 480000 : ℝ) (1 / 2 : ℝ) (-(15627 / 16000) : ℝ) (-(236797 / 240000) : ℝ) (233671 / 480000 : ℝ)
    (by norm_num) cexPool87 (by norm_num [cexMouse, cexMx, cexMxNums, List.getD]) (by norm_num) (by norm_num)
    (by norm_num) (by norm_num) (by norm_num) (by norm_num)

/-- Frame 89 of the C2 counterexample trajectory. -/
theorem cexPool89 : poolTraj cexMouse ((1 : ℕ) : ℝ) ((15000 : ℕ) : ℝ) (createParticles 1 15000 cexRand) 89 =
    [⟨(77 / 480000 : ℝ), 7500, (-(15627 / 16000) : ℝ), 0, 5 / 2, 9 / 20, []⟩] :=
  cex_frame cexMouse ((1 : ℕ) : ℝ) ((15000 : ℕ) : ℝ)
    (createParticles 1 15000 cexRand) 88 89
    (473671 / 480000 : ℝ) 7500 (-(236797 / 240000) : ℝ) (5 / 2) (9 / 20) (77 / 480000 : ℝ) (1 / 2 : ℝ) (-(236797 / 240000) : ℝ) (-(15627 / 16000) : ℝ) (240077 / 480000 : ℝ)
    (by norm_num) cexPool88 (by norm_num [cexMouse, cexMx, cexMxNums, List.getD]) (by norm_num) (by norm_num)
    (by norm_num) (by norm_num) (by norm_num) (by norm_num)

/-- Frame 90 of the C2 counterexample trajectory. -/
theorem cexPool90 : poolTraj cexMouse ((1 : ℕ) : ℝ) ((15000 : ℕ) : ℝ) (createParticles 1 15000 cexRand) 90 =
    [⟨(-(468733 / 480000) : ℝ), 7500, (78927 / 80000 : ℝ), 0, 5 / 2, 9 / 20, []⟩] :=
  cex_frame cexMouse ((1 : ℕ) : ℝ) ((15000 : ℕ) : ℝ)
    (createParticles 1 15000 cexRand) 89 90
    (77 / 480000 : ℝ) 7500 (-(15627 / 16000) : ℝ) (5 / 2) (9 / 20) (-(468733 / 480000) : ℝ) (3 / 2 : ℝ) (15627 / 16000 : ℝ) (78927 / 80000 : ℝ) (251267 / 480000 : ℝ)
    (by norm_num) cexPool89 (by norm_num [cexMouse, cexMx, cexMxNums, List.getD]) (by norm_num) (by norm_num)
    (by norm_num) (by norm_num) (by norm_num) (by norm_num)

/-- Frame 91 of the C2 counterexample trajectory. -/
theorem cexPool91 : poolTraj cexMouse ((1 : ℕ) : ℝ) ((15000 : ℕ) : ℝ) (createParticles 1 15000 cexRand) 91 =
    [⟨(4829 / 480000 : ℝ), 7500, (239173 / 240000 : ℝ), 0, 5 / 2, 9 / 20, []⟩] :=
  cex_frame cexMouse ((1 : ℕ) : ℝ) ((15000 : ℕ) : ℝ)
    (createParticles 1 15000 cexRand) 90 91
    (-(468733 / 480000) : ℝ) 7500 (78927 / 80000 : ℝ) (5 / 2) (9 / 20) (4829 / 480000 : ℝ) (1 / 2 : ℝ) (78927 / 80000 : ℝ) (239173 / 240000 : ℝ) (244829 / 480000 : ℝ)
    (by norm_num) cexPool90 (by norm_num [cexMouse, cexMx, cexMxNums, List.getD]) (by norm_num) (by norm_num)
    (by norm_num) (by norm_num) (by norm_num) (by norm_num)

/-- Frame 92 of the C2 counterexample trajectory. -/
theorem cexPool92 : poolTraj cexMouse ((1 : ℕ) : ℝ) ((15000 : ℕ) : ℝ) (createParticles 1 15000 cexRand) 92 =
    [⟨(19327 / 19200 : ℝ), 7500, (-(80519 / 80000) : ℝ), 0, 5 / 2, 9 / 20, []⟩] :=
  cex_frame cexMouse ((1 : ℕ) : ℝ) ((15000 : ℕ) : ℝ)
    (createParticles 1 15000 cexRand) 91 92
    (4829 / 480000 : ℝ) 7500 (239173 / 240000 : ℝ) (5 / 2) (9 / 20) (19327 / 19200 : ℝ) (1 : ℝ) (-(239173 / 240000) : ℝ) (-(80519 / 80000) : ℝ) (127 / 19200 : ℝ)
    (by norm_num) cexPool91 (by norm_num [cexMouse, cexMx, cexMxNums, List.getD]) (by norm_num) (by norm_num)
    (by norm_num) (by norm_num) (by norm_num) (by norm_num)

/-- Frame 93 of the C2 counterexample trajectory. -/
theorem cexPool93 : poolTraj cexMouse ((1 : ℕ) : ℝ) ((15000 : ℕ) : ℝ) (createParticles 1 15000 cexRand) 93 =
    [⟨(61 / 480000 : ℝ), 7500, (-(47833 / 48000) : ℝ), 0, 5 / 2, 9 / 20, []⟩] :=
  cex_frame cexMouse ((1 : ℕ) : ℝ) ((15000 : ℕ) : ℝ)
    (createParticles 1 15000 cexRand) 92 93
    (19327 / 19200 : ℝ) 7500 (-(80519 / 80000) : ℝ) (5 / 2) (9 / 20) (61 / 480000 : ℝ) (1 / 2 : ℝ) (-(80519 / 80000) : ℝ) (-(47833 / 48000) : ℝ) (240061 / 480000 : ℝ)
    (by norm_num) cexPool92 (by norm_num [cexMouse, cexMx, cexMxNums, List.getD]) (by norm_num) (by norm_num)
    (by norm_num) (by norm_num) (by norm_num) (by norm_num)

/-- Frame 94 of the C2 counterexample trajectory. -/
theorem cexPool94 : poolTraj cexMouse ((1 : ℕ) : ℝ) ((15000 : ℕ) : ℝ) (createParticles 1 15000 cexRand) 94 =
    [⟨(-(159423 / 160000) : ℝ), 7500, (241541 / 240000 : ℝ), 0, 5 / 2, 9 / 20, []⟩] :=
  cex_frame cexMouse ((1 : ℕ) : ℝ) ((15000 : ℕ) : ℝ)
    (createParticles 1 15000 cexRand) 93 94
    (61 / 480000 : ℝ) 7500 (-(47833 / 48000) : ℝ) (5 / 2) (9 / 20) (-(159423 / 160000) : ℝ) (3 / 2 : ℝ) (47833 / 48000 : ℝ) (241541 / 240000 : ℝ) (80577 / 160000 : ℝ)
    (by norm_num) cexPool93 (by norm_num [cexMouse, cexMx, cexMxNums, List.getD]) (by norm_num) (by norm_num)
    (by norm_num) (by norm_num) (by norm_num) (by norm_num)

/-- Frame 95 of the C2 counterexample trajectory. -/
theorem cexPool95 : poolTraj cexMouse ((1 : ℕ) : ℝ) ((15000 : ℕ) : ℝ) (createParticles 1 15000 cexRand) 95 =
    [⟨(4813 / 480000 : ℝ), 7500, (81311 / 80000 : ℝ), 0, 5 / 2, 9 / 20, []⟩] :=
  cex_frame cexMouse ((1 : ℕ) : ℝ) ((15000 : ℕ) : ℝ)
    (createParticles 1 15000 cexRand) 94 95
    (-(159423 / 160000) : ℝ) 7500 (241541 / 240000 : ℝ) (5 / 2) (9 / 20) (4813 / 480000 : ℝ) (1 / 2 : ℝ) (241541 / 240000 : ℝ) (81311 / 80000 : ℝ) (244813 / 480000 : ℝ)
    (by norm_num) cexPool94 (by norm_num [cexMouse, cexMx, cexMxNums, List.getD]) (by norm_num) (by norm_num)
    (by norm_num) (by norm_num) (by norm_num) (by norm_num)

/-- Frame 96 of the C2 counterexample trajectory. -/
theorem cexPool96 : poolTraj cexMouse ((1 : ℕ) : ℝ) ((15000 : ℕ) : ℝ) (createParticles 1 15000 cexRand) 96 =
    [⟨(492679 / 480000 : ℝ), 7500, (-(246317 / 240000) : ℝ), 0, 5 / 2, 9 / 20, []⟩] :=
  cex_frame cexMouse ((1 : ℕ) : ℝ) ((15000 : ℕ) : ℝ)
    (createParticles 1 15000 cexRand) 95 96
    (4813 / 480000 : ℝ) 7500 (81311 / 80000 : ℝ) (5 / 2) (9 / 20) (492679 / 480000 : ℝ) (1 : ℝ) (-(81311 / 80000) : ℝ) (-(246317 / 240000) : ℝ) (12679 / 480000 : ℝ)
    (by norm_num) cexPool95 (by norm_num [cexMouse, cexMx, cexMxNums, List.getD]) (by norm_num) (by norm_num)
    (by norm_num) (by norm_num) (by norm_num) (by norm_num)

/-- Frame 97 of the C2 counterexample trajectory. -/
theorem cexPool97 : poolTraj cexMouse ((1 : ℕ) : ℝ) ((15000 : ℕ) : ℝ) (createParticles 1 15000 cexRand) 97 =
    [⟨(3 / 32000 : ℝ), 7500, (-(9757 / 9600) : ℝ), 0, 5 / 2, 9 / 20, []⟩] :=
  cex_frame cexMouse ((1 : ℕ) : ℝ) ((15000 : ℕ) : ℝ)
    (createParticles 1 15000 cexRand) 96 97
    (492679 / 480000 : ℝ) 7500 (-(246317 / 240000) : ℝ) (5 / 2) (9 / 20) (3 / 32000 : ℝ) (1 / 2 : ℝ) (-(246317 / 240000) : ℝ) (-(9757 / 9600) : ℝ) (16003 / 32000 : ℝ)
    (by norm_num) cexPool96 (by norm_num [cexMouse, cexMx, cexMxNums, List.getD]) (by norm_num) (by norm_num)
    (by norm_num) (by norm_num) (by norm_num) (by norm_num)

/-- Frame 98 of the C2 counterexample trajectory. -/
theorem cexPool98 : poolTraj cexMouse ((1 : ℕ) : ℝ) ((15000 : ℕ) : ℝ) (createParticles 1 15000 cexRand) 98 =
    [⟨(-(97561 / 96000) : ℝ), 7500, (246293 / 240000 : ℝ), 0, 5 / 2, 9 / 20, []⟩] :=
  cex_frame cexMouse ((1 : ℕ) : ℝ) ((15000 : ℕ) : ℝ)
    (createParticles 1 15000 cexRand) 97 98
    (3 / 32000 : ℝ) 7500 (-(9757 / 9600) : ℝ) (5 / 2) (9 / 20) (-(97561 / 96000) : ℝ) (2 : ℝ) (9757 / 9600 : ℝ) (246293 / 240000 : ℝ) (94439 / 96000 : ℝ)
    (by norm_num) cexPool97 (by norm_num [cexMouse, cexMx, cexMxNums, List.getD]) (by norm_num) (by norm_num)
    (by norm_num) (by norm_num) (by norm_num) (by norm_num)

/-- Frame 99 of the C2 counterexample trajectory. -/
theorem cexPool99 : poolTraj cexMouse ((1 : ℕ) : ℝ) ((15000 : ℕ) : ℝ) (createParticles 1 15000 cexRand) 99 =
    [⟨(4781 / 480000 : ℝ), 7500, (16579 / 16000 : ℝ), 0, 5 / 2, 9 / 20, []⟩] :=
  cex_frame cexMouse ((1 : ℕ) : ℝ) ((15000 : ℕ) : ℝ)
    (createParticles 1 15000 cexRand) 98 99
    (-(97561 / 96000) : ℝ) 7500 (246293 / 240000 : ℝ) (5 / 2) (9 / 20) (4781 / 480000 : ℝ) (1 / 2 : ℝ) (246293 / 240000 : ℝ) (16579 / 16000 : ℝ) (244781 / 480000 : ℝ)
    (by norm_num) cexPool98 (by norm_num [cexMouse, cexMx, cexMxNums, List.getD]) (by norm_num) (by norm_num)
    (by norm_num) (by norm_num) (by norm_num) (by norm_num)

/-- Frame 100 of the C2 counterexample trajectory. -/
theorem cexPool100 : poolTraj cexMouse ((1 : ℕ) : ℝ) ((15000 : ℕ) : ℝ) (createParticles 1 15000 cexRand) 100 =
    [⟨(502151 / 480000 : ℝ), 7500, (-(251069 / 240000) : ℝ), 0, 5 / 2, 9 / 20, []⟩] :=
  cex_frame cexMouse ((1 : ℕ) : ℝ) ((15000 : ℕ) : ℝ)
    (createParticles 1 15000 cexRand) 99 100
    (4781 / 480000 : ℝ) 7500 (16579 / 16000 : ℝ) (5 / 2) (9 / 20) (502151 / 480000 : ℝ) (1 : ℝ) (-(16579 / 16000) : ℝ) (-(251069 / 240000) : ℝ) (22151 / 480000 : ℝ)
    (by norm_num) cexPool99 (by norm_num [cexMouse, cexMx, cexMxNums, List.getD]) (by norm_num) (by norm_num)
    (by norm_num) (by norm_num) (by norm_num) (by norm_num)

/-- Frame 101 of the C2 counterexample trajectory. -/
theorem cexPool101 : poolTraj cexMouse ((1 : ℕ) : ℝ) ((15000 : ℕ) : ℝ) (createParticles 1 15000 cexRand) 101 =
    [⟨(13 / 480000 : ℝ), 7500, (-(248677 / 240000) : ℝ), 0, 5 / 2, 9 / 20, []⟩] :=
  cex_frame cexMouse ((1 : ℕ) : ℝ) ((15000 : ℕ) : ℝ)
    (createParticles 1 15000 cexRand) 100 101
    (502151 / 480000 : ℝ) 7500 (-(251069 / 240000) : ℝ) (5 / 2) (9 / 20) (13 / 480000 : ℝ) (1 / 2 : ℝ) (-(251069 / 240000) : ℝ) (-(248677 / 240000) : ℝ) (240013 / 480000 : ℝ)
    (by norm_num) cexPool100 (by norm_num [cexMouse, cexMx, cexMxNums, List.getD]) (by norm_num) (by norm_num)
    (by norm_num) (by norm_num) (by norm_num) (by norm_num)

/-- Frame 102 of the C2 counterexample trajectory. -/
theorem cexPool102 : poolTraj cexMouse ((1 : ℕ) : ℝ) ((15000 : ℕ) : ℝ) (createParticles 1 15000 cexRand) 102 =
    [⟨(-(497341 / 480000) : ℝ), 7500, (50209 / 48000 : ℝ), 0, 5 / 2, 9 / 20, []⟩] :=
  cex_frame cexMouse ((1 : ℕ) : ℝ) ((15000 : ℕ) : ℝ)
    (createParticles 1 15000 cexRand) 101 102
    (13 / 480000 : ℝ) 7500 (-(248677 / 240000) : ℝ) (5 / 2) (9 / 20) (-(497341 / 480000) : ℝ) (2 : ℝ) (248677 / 240000 : ℝ) (50209 / 48000 : ℝ) (462659 / 480000 : ℝ)
    (by norm_num) cexPool101 (by norm_num [cexMouse, cexMx, cexMxNums, List.getD]) (by norm_num) (by norm_num)
    (by norm_num) (by norm_num) (by norm_num) (by norm_num)

/-- Frame 103 of the C2 counterexample trajectory. -/
theorem cexPool103 : poolTraj cexMouse ((1 : ℕ) : ℝ) ((15000 : ℕ) : ℝ) (createParticles 1 15000 cexRand) 103 =
    [⟨(1583 / 160000 : ℝ), 7500, (84479 / 80000 : ℝ), 0, 5 / 2, 9 / 20, []⟩] :=
  cex_frame cexMouse ((1 : ℕ) : ℝ) ((15000 : ℕ) : ℝ)
    (createParticles 1 15000 cexRand) 102 103
    (-(497341 / 480000) : ℝ) 7500 (50209 / 48000 : ℝ) (5 / 2) (9 / 20) (1583 / 160000 : ℝ) (1 / 2 : ℝ) (50209 / 48000 : ℝ) (84479 / 80000 : ℝ) (81583 / 160000 : ℝ)
    (by norm_num) cexPool102 (by norm_num [cexMouse, cexMx, cexMxNums, List.getD]) (by norm_num) (by norm_num)
    (by norm_num) (by norm_num) (by norm_num) (by norm_num)

/-- Frame 104 of the C2 counterexample trajectory. -/
theorem cexPool104 : poolTraj cexMouse ((1 : ℕ) : ℝ) ((15000 : ℕ) : ℝ) (createParticles 1 15000 cexRand) 104 =
    [⟨(170541 / 160000 : ℝ), 7500, (-(255821 / 240000) : ℝ), 0, 5 / 2, 9 / 20, []⟩] :=
  cex_frame cexMouse ((1 : ℕ) : ℝ) ((15000 : ℕ) : ℝ)
    (createParticles 1 15000 cexRand) 103 104
    (1583 / 160000 : ℝ) 7500 (84479 / 80000 : ℝ) (5 / 2) (9 / 20) (170541 / 160000 : ℝ) (1 : ℝ) (-(84479 / 80000) : ℝ) (-(255821 / 240000) : ℝ) (10541 / 160000 : ℝ)
    (by norm_num) cexPool103 (by norm_num [cexMouse, cexMx, cexMxNums, List.getD]) (by norm_num) (by norm_num)
    (by norm_num) (by norm_num) (by norm_num) (by norm_num)

/-- Frame 105 of the C2 counterexample trajectory. -/
theorem cexPool105 : poolTraj cexMouse ((1 : ℕ) : ℝ) ((15000 : ℕ) : ℝ) (createParticles 1 15000 cexRand) 105 =
    [⟨(-(19 / 480000) : ℝ), 7500, (7746629981 / 7200000000 : ℝ), 0, 5 / 2, 9 / 20, []⟩] :=
  cex_frame cexMouse ((1 : ℕ) : ℝ) ((15000 : ℕ) : ℝ)
    (createParticles 1 15000 cexRand) 104 105
    (170541 / 160000 : ℝ) 7500 (-(255821 / 240000) : ℝ) (5 / 2) (9 / 20) (-(19 / 480000) : ℝ) (19 / 480000 : ℝ) (255821 / 240000 : ℝ) (7746629981 / 7200000000 : ℝ) (0 : ℝ)
    (by norm_num) cexPool104 (by norm_num [cexMouse, cexMx, cexMxNums, List.getD]) (by norm_num) (by norm_num)
    (by norm_num) (by norm_num) (by norm_num) (by norm_num)

set_option maxHeartbeats 800000 in
/-- C2 counterexample: on a 1×15000 viewport (whose fresh pool has exactly
one particle, at x = 1177/2000 with vx = -1/4), with the pointer inside the
viewport on every frame, the pointer-attraction term (which has no damping)
pumps the particle's horizontal speed beyond the canvas width; at frame 105
the particle sits at x = -19/480000 < 0 and at frame 106 at
x = 7746344981/7200000000 > 1, i.e. outside `[0, w] × [0, h]` on two
consecutive frames — refuting “stays within bounds except for at most one
frame's overshoot” as an unconditional statement over all trajectories. -/
theorem c2_consecutive_overshoot_counterexample :
    (∀ k, 0 ≤ cexRand k ∧ cexRand k < 1) ∧
    (∀ k, 0 ≤ (cexMouse k).1 ∧ (cexMouse k).1 ≤ ((1 : ℕ) : ℝ) ∧
      0 ≤ (cexMouse k).2 ∧ (cexMouse k).2 ≤ ((15000 : ℕ) : ℝ)) ∧
    (∃ p1 p2 : Particle,
      (poolTraj cexMouse ((1 : ℕ) : ℝ) ((15000 : ℕ) : ℝ) (createParticles 1 15000 cexRand) 105)[0]? = some p1 ∧
      (poolTraj cexMouse ((1 : ℕ) : ℝ) ((15000 : ℕ) : ℝ) (createParticles 1 15000 cexRand) 106)[0]? = some p2 ∧
      p1.x < 0 ∧ ((1 : ℕ) : ℝ) < p2.x) := by
  refine ⟨?_, ?_, ?_⟩
  · intro k
    simp only [cexRand]
    split_ifs <;> norm_num
  · intro k
    have h := getD_of_forall (fun t => t ≤ 480000) cexMxNums k 240000
      (by decide) (by norm_num)
    refine ⟨?_, ?_, by norm_num [cexMouse], by norm_num [cexMouse]⟩
    · show (0 : ℝ) ≤ (cexMouse k).1
      simp only [cexMouse, cexMx]
      exact div_nonneg (Nat.cast_nonneg _) (by norm_num)
    · show (cexMouse k).1 ≤ ((1 : ℕ) : ℝ)
      simp only [cexMouse, cexMx]
      rw [Nat.cast_one, div_le_one (by norm_num : (0 : ℝ) < 480000)]
      exact_mod_cast h
  · have hp1 : (poolTraj cexMouse ((1 : ℕ) : ℝ) ((15000 : ℕ) : ℝ) (createParticles 1 15000 cexRand) 105)[0]? =
        some ⟨(-(19 / 480000) : ℝ), 7500, (7746629981 / 7200000000 : ℝ), 0, 5 / 2, 9 / 20, []⟩ := by
      rw [cexPool105]; rfl
    obtain ⟨p2, hp2, hp2x⟩ := poolTraj_next_x cexMouse ((1 : ℕ) : ℝ) ((15000 : ℕ) : ℝ)
      (createParticles 1 15000 cexRand) 105 106 (by norm_num) (-(19 / 480000) : ℝ) 7500 (7746629981 / 7200000000 : ℝ)
      (5 / 2) (9 / 20) cexPool105
    refine ⟨_, p2, hp1, hp2, by norm_num, ?_⟩
    rw [hp2x]
    norm_num

end ParticleBackground
